import Mathlib

/-!
# Flight search pipeline: `server.js` and `netlify/functions/search-flights.js`

A shallow embedding of the two copies of the search pipeline (token cache,
query validation, upstream search call, offer normalisation, price sort) and
the properties proved about them.

Layout:

* `Flights.JsNum`, `Flights.JsVal` and the `Flights.Js` namespace: the fragment
  of JavaScript's value semantics the program relies on (truthiness, `||`,
  `===`, property reads, optional chaining, `String`, `Number`, `Math.max`,
  `Array.prototype.map`, `Array.prototype.sort`).
* `Flights.Server`: `src/server.js` (`getAccessToken`, the
  `POST /api/search-flights` route).
* `Flights.Netlify`: `src/netlify/functions/search-flights.js`
  (`getAccessToken`, `json`, `exports.handler`).

Modelling conventions.

* Numbers are IEEE-754 doubles. A finite double is an integer multiple of
  `2^-1074` and is stored as that integer; every arithmetic operation computes
  the exact result and rounds it to the nearest double, ties to even, with
  overflow to `Infinity`. The zero `-0` is identified with `+0`: the program
  has no operation that tells them apart. Not every integer is the image of a
  double (a double has 53 significant bits); the theorems are proved for every
  value of the type, hence for every double.
* Strings are Lean strings (sequences of code points), so strings with unpaired
  surrogates are outside the embedding.
* Module state (`cachedToken`, `cachedTokenExpiresAt`) is passed explicitly;
  the outside world (the two `Date.now()` readings and `fetch`) is an explicit
  argument, and every upstream request is logged in the outcome.
* A thrown `Error` is the `String` carrying its `message`; messages of errors
  thrown by the engine follow V8's wording.
-/

namespace Flights

/-! ## JavaScript numbers -/

/-- A JavaScript number: `NaN`, `-Infinity`, `+Infinity`, or the finite value
`units * 2^-1074`. Every finite double is such a value; the operations below
return doubles only. -/
inductive JsNum where
  | nan
  | negInf
  | fin (units : Int)
  | posInf
  deriving DecidableEq, Repr

namespace JsNum

/-- The number `1` counted in units of `2^-1074`. -/
def unit : Nat := 2 ^ 1074

/-- The number denoted by an integer, exactly. It is a double when the integer
is below `2^53` in magnitude, as are the literals of the program and the length
of every array and string. -/
def ofInt (i : Int) : JsNum := fin (i * unit)

/-- Binary search for `floor (log2 n)`: with `i` rounds left, `n < 2^(2^i)`. -/
def log2Search : Nat → Nat → Nat → Nat
  | 0, _, acc => acc
  | i + 1, n, acc =>
    if 2 ^ (2 ^ i) ≤ n then log2Search i (n / 2 ^ (2 ^ i)) (acc + 2 ^ i)
    else log2Search i n acc

/-- The value `floor (log2 n)` for `0 < n < 2^4096`. -/
def floorLog2 (n : Nat) : Nat := log2Search 12 n 0

/-- The quotient `num / den` rounded to the nearest integer, ties to even. -/
def divRoundEven (num den : Nat) : Nat :=
  if 2 * (num % den) < den then num / den
  else if den < 2 * (num % den) then num / den + 1
  else if (num / den) % 2 = 0 then num / den else num / den + 1

/-- The double nearest to the positive rational `num / den` units, ties to
even; `none` when the rounded value reaches `2^1024`. Below `2^53` units
consecutive doubles are one unit apart; a value of `b > 53` bits lies among
doubles that are `2^(b - 53)` units apart. -/
def roundPos (num den : Nat) : Option Nat :=
  if num / den < 2 ^ 53 then some (divRoundEven num den)
  else if 2 ^ 2098 ≤ num / den then none
  else if 2 ^ 2098 ≤ divRoundEven num (den * 2 ^ (floorLog2 (num / den) - 52))
      * 2 ^ (floorLog2 (num / den) - 52) then none
  else some (divRoundEven num (den * 2 ^ (floorLog2 (num / den) - 52))
      * 2 ^ (floorLog2 (num / den) - 52))

/-- The double nearest to the rational `num / den` units, with the given
sign. -/
def round (negative : Bool) (num den : Nat) : JsNum :=
  match roundPos num den with
  | some n => if negative then fin (-(n : Int)) else fin n
  | none => if negative then negInf else posInf

/-- The double nearest to an integer number of units. -/
def roundInt (z : Int) : JsNum := round (decide (z < 0)) z.natAbs 1

/-- Unary minus. -/
def neg : JsNum → JsNum
  | nan => nan
  | negInf => posInf
  | posInf => negInf
  | fin a => fin (-a)

/-- The operator `a + b` on numbers. -/
def add : JsNum → JsNum → JsNum
  | nan, _ => nan
  | _, nan => nan
  | posInf, negInf => nan
  | negInf, posInf => nan
  | posInf, _ => posInf
  | _, posInf => posInf
  | negInf, _ => negInf
  | _, negInf => negInf
  | fin a, fin b => roundInt (a + b)

/-- The operator `a - b` on numbers. -/
def sub (a b : JsNum) : JsNum := add a (neg b)

/-- Product of an infinity of sign `pos` with a finite number of `a` units. -/
def infTimes (pos : Bool) (a : Int) : JsNum :=
  if a = 0 then nan
  else if (decide (0 < a)) = pos then posInf else negInf

/-- The operator `a * b` on numbers. -/
def mul : JsNum → JsNum → JsNum
  | nan, _ => nan
  | _, nan => nan
  | fin a, fin b => round (decide (a * b < 0)) (a * b).natAbs unit
  | fin a, posInf => infTimes true a
  | fin a, negInf => infTimes false a
  | posInf, fin b => infTimes true b
  | negInf, fin b => infTimes false b
  | posInf, posInf => posInf
  | negInf, negInf => posInf
  | posInf, negInf => negInf
  | negInf, posInf => negInf

/-- The comparison `a < b` (false as soon as one side is `NaN`). -/
def lt : JsNum → JsNum → Bool
  | nan, _ => false
  | _, nan => false
  | negInf, negInf => false
  | negInf, _ => true
  | _, negInf => false
  | posInf, _ => false
  | fin _, posInf => true
  | fin a, fin b => decide (a < b)

/-- The comparison `a <= b` (false as soon as one side is `NaN`). -/
def le : JsNum → JsNum → Bool
  | nan, _ => false
  | _, nan => false
  | negInf, _ => true
  | _, posInf => true
  | posInf, _ => false
  | _, negInf => false
  | fin a, fin b => decide (a ≤ b)

/-- Equality of numbers as `===` sees it (`NaN` differs from itself). -/
def eqv : JsNum → JsNum → Bool
  | negInf, negInf => true
  | posInf, posInf => true
  | fin a, fin b => decide (a = b)
  | _, _ => false

/-- The predicate `Number.isNaN`. -/
def isNaN : JsNum → Bool
  | nan => true
  | _ => false

/-- Whether the number is `0` or `NaN` (the falsy numbers). -/
def isFalsy : JsNum → Bool
  | nan => true
  | fin a => decide (a = 0)
  | _ => false

/-- The function `Math.max(a, b)`: `NaN` when either argument is `NaN`. -/
def max (a b : JsNum) : JsNum :=
  if a.isNaN || b.isNaN then nan else if lt a b then b else a

/-- The array index denoted by a number, when it is a non-negative integer. -/
def toIndex? : JsNum → Option Nat
  | fin a => if 0 ≤ a ∧ a % (unit : Int) = 0 then some (a / (unit : Int)).toNat else none
  | _ => none

/-- The double nearest to `m * 10^x`. -/
def scaledDecimal (m : Nat) (x : Int) : JsNum :=
  if 0 ≤ x then round false (m * 10 ^ x.toNat * unit) 1
  else round false (m * unit) (10 ^ (-x).toNat)

/-- The decimal exponent `n` of a positive number of `units` units:
`10^(n-1) <= x < 10^n`. -/
def decimalExponent (units : Nat) : Int :=
  ((Nat.repr (units * 10 ^ 400 / unit)).length : Int) - 400

/-- Numerator and denominator of `x / 10^e` for the number `x` of `units`
units. -/
def scaledQuotient (units : Nat) (e : Int) : Nat × Nat :=
  if e ≤ 0 then (units * 10 ^ (-e).toNat, unit) else (units, unit * 10 ^ e.toNat)

/-- The integer `s` of `k` digits for which `s * 10^(n-k)` converts back to
the number, if there is one: the candidates are the two neighbours of
`x / 10^(n-k)`, and of two that convert back the closer one is taken, the even
one on a tie. -/
def digitsOfLength (units : Nat) (k : Nat) : Option (Nat × Int) :=
  let e := decimalExponent units - k
  let nd := scaledQuotient units e
  let lo := nd.1 / nd.2
  let hi := lo + 1
  let okLo := decide (0 < lo) && decide (scaledDecimal lo e = fin units)
  let okHi := decide (scaledDecimal hi e = fin units)
  let loCloser := decide (2 * nd.1 < (2 * lo + 1) * nd.2)
    || (decide (2 * nd.1 = (2 * lo + 1) * nd.2) && decide (lo % 2 = 0))
  if okLo && (loCloser || !okHi) then some (lo, e)
  else if okHi then some (hi, e)
  else none

/-- The shortest digit string that converts back to the number, searched by
increasing length; 17 digits always suffice. -/
def shortestDigits (units : Nat) : List Nat → Nat × Int
  | [] => ((scaledQuotient units (decimalExponent units - 17)).1
      / (scaledQuotient units (decimalExponent units - 17)).2, decimalExponent units - 17)
  | k :: ks =>
    match digitsOfLength units k with
    | some r => r
    | none => shortestDigits units ks

/-- Drops the trailing zeros of a digit list. -/
def stripZeros (cs : List Char) : List Char :=
  (cs.reverse.dropWhile (fun c => c == '0')).reverse

/-- The string of a positive finite number (`Number::toString`, radix 10): the
shortest digits `d1...dk` and the exponent `n` with value `0.d1...dk * 10^n`,
laid out in plain notation for `-6 < n <= 21` and in exponent notation
otherwise. -/
def positiveToString (units : Nat) : String :=
  let r := shortestDigits units (List.range' 1 17)
  let all := (Nat.repr r.1).data
  let digits := stripZeros all
  let k := digits.length
  let n : Int := r.2 + all.length
  if (k : Int) ≤ n ∧ n ≤ 21 then
    String.mk (digits ++ List.replicate (n.toNat - k) '0')
  else if 0 < n ∧ n ≤ 21 then
    String.mk (digits.take n.toNat ++ ['.'] ++ digits.drop n.toNat)
  else if -6 < n ∧ n ≤ 0 then
    String.mk (['0', '.'] ++ List.replicate (-n).toNat '0' ++ digits)
  else
    let x := n - 1
    let exponent := (if x < 0 then "-" else "+") ++ Nat.repr x.natAbs
    if k = 1 then String.mk digits ++ "e" ++ exponent
    else String.mk (digits.take 1 ++ ['.'] ++ digits.drop 1) ++ "e" ++ exponent

/-- The conversion of a number to a string (`Number::toString`). -/
def toString : JsNum → String
  | nan => "NaN"
  | posInf => "Infinity"
  | negInf => "-Infinity"
  | fin a =>
    if a = 0 then "0"
    else if a < 0 then "-" ++ positiveToString a.natAbs
    else positiveToString a.natAbs

end JsNum

/-! ## String to number -/

namespace Js

/-- White space and line terminators skipped by `Number(string)`. -/
def isWhiteSpace (c : Char) : Bool :=
  let n := c.toNat
  n = 9 || n = 10 || n = 11 || n = 12 || n = 13 || n = 32 || n = 0xA0 || n = 0x1680
    || (0x2000 ≤ n && n ≤ 0x200A) || n = 0x2028 || n = 0x2029 || n = 0x202F
    || n = 0x205F || n = 0x3000 || n = 0xFEFF

/-- Strips leading and trailing white space. -/
def trimWhiteSpace (cs : List Char) : List Char :=
  ((cs.dropWhile isWhiteSpace).reverse.dropWhile isWhiteSpace).reverse

/-- Value of a digit in the given radix (2, 8, 10 or 16). -/
def digitValue (radix : Nat) (c : Char) : Option Nat :=
  let n := c.toNat
  let v : Option Nat :=
    if 48 ≤ n ∧ n ≤ 57 then some (n - 48)
    else if 97 ≤ n ∧ n ≤ 102 then some (n - 87)
    else if 65 ≤ n ∧ n ≤ 70 then some (n - 55)
    else none
  match v with
  | some d => if d < radix then some d else none
  | none => none

/-- Whether the character is a decimal digit. -/
def isDecimalDigit (c : Char) : Bool := (digitValue 10 c).isSome

/-- Reads a non-empty digit string in the given radix; `none` on any other
character or on the empty string. -/
def readDigits (radix : Nat) (cs : List Char) : Option Nat :=
  if cs = [] then none
  else cs.foldl (fun acc c =>
    match acc, digitValue radix c with
    | some a, some d => some (a * radix + d)
    | _, _ => none) (some 0)

/-- Reads the exponent part after `e`/`E`: an optional sign and digits. -/
def readExponent (cs : List Char) : Option Int :=
  match cs with
  | '+' :: t => (readDigits 10 t).map Int.ofNat
  | '-' :: t => (readDigits 10 t).map (fun n => - Int.ofNat n)
  | _ => (readDigits 10 cs).map Int.ofNat

/-- An unsigned decimal literal: `digits`, `digits.`, `digits.digits`,
`.digits`, each with an optional exponent; its value is rounded to the nearest
double. -/
def readUnsignedDecimal (cs : List Char) : JsNum :=
  let ip := cs.takeWhile isDecimalDigit
  let r1 := cs.dropWhile isDecimalDigit
  let fp := match r1 with
    | '.' :: t => t.takeWhile isDecimalDigit
    | _ => []
  let r2 := match r1 with
    | '.' :: t => t.dropWhile isDecimalDigit
    | _ => r1
  if ip = [] ∧ fp = [] then JsNum.nan
  else
    match readDigits 10 ('0' :: (ip ++ fp)) with
    | none => JsNum.nan
    | some m =>
      match r2 with
      | [] => JsNum.scaledDecimal m (-(fp.length : Int))
      | c :: t =>
        if c = 'e' ∨ c = 'E' then
          match readExponent t with
          | some x => JsNum.scaledDecimal m (x - (fp.length : Int))
          | none => JsNum.nan
        else JsNum.nan

/-- A decimal literal with an optional sign, or a signed `Infinity`. -/
def readSignedDecimal (cs : List Char) : JsNum :=
  match cs with
  | '+' :: t => if t = "Infinity".data then JsNum.posInf else readUnsignedDecimal t
  | '-' :: t =>
    if t = "Infinity".data then JsNum.negInf else JsNum.neg (readUnsignedDecimal t)
  | _ => if cs = "Infinity".data then JsNum.posInf else readUnsignedDecimal cs

/-- The conversion `Number(s)` of a string: white space is trimmed, the empty
string is `0`, then a hexadecimal, octal, binary or decimal literal is read and
rounded to the nearest double; anything else is `NaN`. -/
def stringToNumber (s : String) : JsNum :=
  match trimWhiteSpace s.data with
  | [] => JsNum.ofInt 0
  | '0' :: c :: t =>
    if c = 'x' ∨ c = 'X' then
      match readDigits 16 t with
      | some n => JsNum.scaledDecimal n 0
      | none => JsNum.nan
    else if c = 'o' ∨ c = 'O' then
      match readDigits 8 t with
      | some n => JsNum.scaledDecimal n 0
      | none => JsNum.nan
    else if c = 'b' ∨ c = 'B' then
      match readDigits 2 t with
      | some n => JsNum.scaledDecimal n 0
      | none => JsNum.nan
    else readSignedDecimal ('0' :: c :: t)
  | cs => readSignedDecimal cs

end Js

/-! ## JavaScript values -/

/-- A JavaScript value as this program meets it: the values `JSON.parse`
produces, `undefined`, and the built-in methods that a property read on an
array or a string can return (`builtin`, named by its full path). An object is
its list of own properties, keys distinct. -/
inductive JsVal where
  | undefined
  | null
  | bool (b : Bool)
  | num (n : JsNum)
  | str (s : String)
  | arr (xs : List JsVal)
  | obj (fields : List (String × JsVal))
  | builtin (name : String)
  deriving Repr

namespace Js

/-- Truthiness: `undefined`, `null`, `false`, `0`, `NaN` and `""` are falsy. -/
def truthy : JsVal → Bool
  | .undefined => false
  | .null => false
  | .bool b => b
  | .num n => !n.isFalsy
  | .str s => !(s == "")
  | .arr _ => true
  | .obj _ => true
  | .builtin _ => true

/-- The operator `a || b`. -/
def or (a b : JsVal) : JsVal := if truthy a then a else b

/-- Whether a value is `undefined` or `null`. -/
def nullish : JsVal → Bool
  | .undefined => true
  | .null => true
  | _ => false

/-- The operator `a === b` on decoded values: primitives compare by value;
two arrays or two objects are distinct references and never equal. -/
def strictEq : JsVal → JsVal → Bool
  | .undefined, .undefined => true
  | .null, .null => true
  | .bool a, .bool b => a == b
  | .num a, .num b => JsNum.eqv a b
  | .str a, .str b => a == b
  | .builtin a, .builtin b => a == b
  | _, _ => false

/-- Own property of an object, `undefined` when there is none. -/
def lookup (fields : List (String × JsVal)) (k : String) : JsVal :=
  match fields with
  | [] => .undefined
  | (k', v) :: rest => if k' = k then v else lookup rest k

/-- The array index a property key denotes, when it is a canonical decimal. -/
def keyIndex? (k : String) : Option Nat :=
  match readDigits 10 k.data with
  | some n => if Nat.repr n = k then some n else none
  | none => none

/-- Length of a string in UTF-16 code units. -/
def utf16Length (s : String) : Nat :=
  s.data.foldl (fun n c => n + (if 0x10000 ≤ c.toNat then 2 else 1)) 0

/-- The property read `v[k]` on a value that is not `undefined` or `null`.
Arrays and strings answer `length`, their indices and the inherited method
`at`; the other inherited members and the properties of functions are not
modelled, the program reads none of them. String indexing is by code point; its results only flow into optional
property reads, which give `undefined` on every string. -/
def prop (v : JsVal) (k : String) : JsVal :=
  match v with
  | .obj fields => lookup fields k
  | .arr xs =>
    if k = "length" then .num (JsNum.ofInt xs.length)
    else if k = "at" then .builtin "Array.prototype.at"
    else match keyIndex? k with
      | some i => xs.getD i .undefined
      | none => .undefined
  | .str s =>
    if k = "length" then .num (JsNum.ofInt (utf16Length s))
    else if k = "at" then .builtin "String.prototype.at"
    else match keyIndex? k with
      | some i =>
        match s.data.get? i with
        | some c => .str (String.singleton c)
        | none => .undefined
      | none => .undefined
  | _ => .undefined

/-- The property read `v.k`, which throws a `TypeError` on `undefined` and
`null`. -/
def getProp (v : JsVal) (k : String) : Except String JsVal :=
  match v with
  | .undefined =>
    .error ("Cannot read properties of undefined (reading \x27" ++ k ++ "\x27)")
  | .null => .error ("Cannot read properties of null (reading \x27" ++ k ++ "\x27)")
  | _ => .ok (prop v k)

/-- The optional read `v?.k`. -/
def optProp (v : JsVal) (k : String) : JsVal :=
  if nullish v then .undefined else prop v k

/-- The computed read `v[n]` with a numeric key, on a value that is not
`undefined` or `null`: arrays and strings are addressed by index, any other
value by the property key the number converts to. -/
def index (v : JsVal) (n : JsNum) : JsVal :=
  match v with
  | .arr xs =>
    match n.toIndex? with
    | some i => xs.getD i .undefined
    | none => .undefined
  | .str s =>
    match n.toIndex? with
    | some i =>
      match s.data.get? i with
      | some c => .str (String.singleton c)
      | none => .undefined
    | none => .undefined
  | _ => prop v n.toString

/-- The message of the `TypeError` thrown when an object has no callable
`toString` or `valueOf` giving a primitive. -/
def cannotConvert : String := "Cannot convert object to primitive value"

/-- The text `Function.prototype.toString` gives for a built-in method, whose
name is the last component of its path: `function at() \x7b [native code] \x7d`. -/
def nativeSource (path : String) : String :=
  "function " ++ (path.splitOn ".").getLastD path ++ "() \x7b [native code] \x7d"

mutual
/-- The conversion `String(v)`. An object decoded from JSON converts to
`[object Object]`, unless it has an own property `toString`: that property is
not callable and hides `Object.prototype.toString`, and `valueOf` returns the
object itself, so the conversion throws a `TypeError`. An array converts to the
join of its elements. -/
def toStr : JsVal → Except String String
  | .undefined => .ok "undefined"
  | .null => .ok "null"
  | .bool b => .ok (if b then "true" else "false")
  | .num n => .ok n.toString
  | .str s => .ok s
  | .arr xs => joinStr xs
  | .obj fields =>
    if fields.any (fun p => p.1 == "toString") then .error cannotConvert
    else .ok "[object Object]"
  | .builtin name => .ok (nativeSource name)
/-- The method `Array.prototype.join` with the separator `,`: `undefined` and
`null` elements give the empty string, the others are converted in order. -/
def joinStr : List JsVal → Except String String
  | [] => .ok ""
  | [x] => elemStr x
  | x :: y :: rest =>
    match elemStr x with
    | .error e => .error e
    | .ok a =>
      match joinStr (y :: rest) with
      | .error e => .error e
      | .ok b => .ok (a ++ "," ++ b)
/-- The string of one array element inside `join`. -/
def elemStr : JsVal → Except String String
  | .undefined => .ok ""
  | .null => .ok ""
  | .bool b => .ok (if b then "true" else "false")
  | .num n => .ok n.toString
  | .str s => .ok s
  | .arr xs => joinStr xs
  | .obj fields =>
    if fields.any (fun p => p.1 == "toString") then .error cannotConvert
    else .ok "[object Object]"
  | .builtin name => .ok (nativeSource name)
end

/-- The conversion `Number(v)`, also applied by the operator `v - 1`: arrays,
objects and functions are first converted to a string, which may throw. -/
def toNumber : JsVal → Except String JsNum
  | .undefined => .ok JsNum.nan
  | .null => .ok (JsNum.ofInt 0)
  | .bool b => .ok (if b then JsNum.ofInt 1 else JsNum.ofInt 0)
  | .num n => .ok n
  | .str s => .ok (stringToNumber s)
  | .arr xs =>
    match toStr (.arr xs) with
    | .error e => .error e
    | .ok s => .ok (stringToNumber s)
  | .obj fields =>
    match toStr (.obj fields) with
    | .error e => .error e
    | .ok s => .ok (stringToNumber s)
  | .builtin name =>
    match toStr (.builtin name) with
    | .error e => .error e
    | .ok s => .ok (stringToNumber s)

/-- Insertion of `x` in front of a sorted tail: `x` moves right past `y` only
when the comparator says `cmp(x, y) > 0`; an exception thrown by the comparator
aborts the sort. -/
def insertSorted (cmp : JsVal → JsVal → Except String JsNum) (x : JsVal) :
    List JsVal → Except String (List JsVal)
  | [] => .ok [x]
  | y :: ys =>
    match cmp x y with
    | .error e => .error e
    | .ok c =>
      if JsNum.lt (JsNum.ofInt 0) c then
        match insertSorted cmp x ys with
        | .error e => .error e
        | .ok rest => .ok (y :: rest)
      else .ok (x :: y :: ys)

/-- The method `Array.prototype.sort(cmp)` on an array without `undefined`
elements: a stable sort, where a comparator result that is `NaN` counts as
`0`. The comparator is not called on an array of fewer than two elements, and
every element of a longer array is compared at least once. The language fixes
the resulting order only for consistent comparators; on the others the order is
the engine's choice and this one is insertion order. -/
def sortWith (cmp : JsVal → JsVal → Except String JsNum) :
    List JsVal → Except String (List JsVal)
  | [] => .ok []
  | x :: xs =>
    match sortWith cmp xs with
    | .error e => .error e
    | .ok sorted => insertSorted cmp x sorted

/-- The method `Array.prototype.map(f)` with a callback that may throw: the
first exception aborts the traversal. -/
def arrayMap (f : JsVal → Except String JsVal) : List JsVal → Except String (List JsVal)
  | [] => .ok []
  | x :: xs =>
    match f x with
    | .error e => .error e
    | .ok y =>
      match arrayMap f xs with
      | .error e => .error e
      | .ok ys => .ok (y :: ys)

end Js

/-! ## The outside world -/

/-- The environment variables the program reads (`process.env`): each is a
string or is not set. -/
structure Env where
  AMADEUS_BASE_URL : Option String
  AMADEUS_CLIENT_ID : Option String
  AMADEUS_CLIENT_SECRET : Option String

/-- The expression `process.env.X || fallback`. -/
def envOr (v : Option String) (fallback : String) : String :=
  match v with
  | some s => if s = "" then fallback else s
  | none => fallback

/-- The expression `!process.env.X`: the variable is not set or is empty. -/
def envMissing (v : Option String) : Bool :=
  match v with
  | some s => s == ""
  | none => true

/-- An upstream request handed to `fetch`: a `POST` with a form body, or a
`GET` with a query string and an `Authorization` header. The form body and the
query string are kept as the entries of their `URLSearchParams`, each value
already converted to a string; percent-encoding is not modelled. -/
inductive Request where
  | post (url : String) (contentType : String) (form : List (String × String))
  | get (url : String) (query : List (String × String)) (authorization : String)

/-- What `fetch` resolves to: the status, the body as `text()` gives it, and
the body as `json()` gives it (an error message when the body is not JSON). -/
structure HttpResponse where
  status : Nat
  text : String
  json : Except String JsVal

/-- The property `response.ok`: the status is in the range 200 to 299. -/
def HttpResponse.ok (r : HttpResponse) : Bool :=
  decide (200 ≤ r.status) && decide (r.status ≤ 299)

/-- The outside world during one call: the reading of `Date.now()` on entry
to `getAccessToken`, its reading when the token is stored, and `fetch`, which
resolves to a response or rejects with an error message. -/
structure World where
  now : JsNum
  nowAtStore : JsNum
  fetch : Request → Except String HttpResponse

/-- The module state: `cachedToken` and `cachedTokenExpiresAt`. -/
structure TokenCache where
  cachedToken : JsVal
  cachedTokenExpiresAt : JsNum

/-- The module state when the module is loaded: `null` and `0`. -/
def TokenCache.initial : TokenCache := ⟨.null, JsNum.ofInt 0⟩

/-- Outcome of `getAccessToken`: the token returned or the error thrown, the
module state afterwards and the upstream requests issued, in order. -/
structure TokenOutcome where
  result : Except String JsVal
  cache : TokenCache
  requests : List Request

/-- Outcome of a request handler: the response, the module state afterwards
and the upstream requests issued, in order. -/
structure Outcome (ρ : Type) where
  response : ρ
  cache : TokenCache
  requests : List Request

/-- The expression `error.message || "Unexpected server error."` of both
`catch` blocks. -/
def errorMessage (message : String) : String :=
  if message = "" then "Unexpected server error." else message

/-- The object `{ error: message }`. -/
def errorBody (message : String) : JsVal := .obj [("error", .str message)]

/-! ## `src/server.js` -/

namespace Server

/-- The constant `AMADEUS_BASE`. -/
def AMADEUS_BASE (env : Env) : String :=
  envOr env.AMADEUS_BASE_URL "https://test.api.amadeus.com"

/-- The credential-exchange request of `getAccessToken` (lines 30-42). -/
def tokenRequest (env : Env) : Request :=
  .post (AMADEUS_BASE env ++ "/v1/security/oauth2/token")
    "application/x-www-form-urlencoded"
    [("grant_type", "client_credentials"),
     ("client_id", env.AMADEUS_CLIENT_ID.getD ""),
     ("client_secret", env.AMADEUS_CLIENT_SECRET.getD "")]

/-- The function `getAccessToken` (lines 20-56). Line 50 replaces
`cachedToken` before line 52 converts the lifetime, so a conversion that throws
leaves the new token with the old expiry. -/
def getAccessToken (env : Env) (w : World) (c : TokenCache) : TokenOutcome :=
  let now := w.now
  if Js.truthy c.cachedToken && JsNum.lt now c.cachedTokenExpiresAt then
    ⟨.ok c.cachedToken, c, []⟩
  else if envMissing env.AMADEUS_CLIENT_ID || envMissing env.AMADEUS_CLIENT_SECRET then
    ⟨.error "Missing AMADEUS_CLIENT_ID or AMADEUS_CLIENT_SECRET", c, []⟩
  else
    match w.fetch (tokenRequest env) with
    | .error e => ⟨.error e, c, [tokenRequest env]⟩
    | .ok tokenResponse =>
      if !tokenResponse.ok then
        ⟨.error ("Token request failed: " ++ Nat.repr tokenResponse.status ++ " "
            ++ tokenResponse.text), c, [tokenRequest env]⟩
      else
        match tokenResponse.json with
        | .error e => ⟨.error e, c, [tokenRequest env]⟩
        | .ok tokenData =>
          match Js.getProp tokenData "access_token" with
          | .error e => ⟨.error e, c, [tokenRequest env]⟩
          | .ok token =>
            match Js.toNumber
              (Js.or (Js.prop tokenData "expires_in") (.num (JsNum.ofInt 1799))) with
            | .error e => ⟨.error e, ⟨token, c.cachedTokenExpiresAt⟩, [tokenRequest env]⟩
            | .ok expiresIn =>
              ⟨.ok token,
                ⟨token, JsNum.add w.nowAtStore
                  (JsNum.mul (JsNum.sub expiresIn (JsNum.ofInt 60)) (JsNum.ofInt 1000))⟩,
                [tokenRequest env]⟩

/-- Lines 98 and 100: `itinerary?.segments?.[0]`. -/
def firstSegment (itinerary : JsVal) : JsVal :=
  if Js.nullish (Js.optProp itinerary "segments") then .undefined
  else Js.index (Js.prop itinerary "segments") (JsNum.ofInt 0)

/-- Lines 99 and 101:
`itinerary?.segments?.[itinerary.segments.length - 1]`, where the subtraction
converts the length to a number and may throw. -/
def lastSegment (itinerary : JsVal) : Except String JsVal :=
  if Js.nullish (Js.optProp itinerary "segments") then .ok .undefined
  else
    match Js.toNumber (Js.prop (Js.prop itinerary "segments") "length") with
    | .error e => .error e
    | .ok n => .ok (Js.index (Js.prop itinerary "segments") (JsNum.sub n (JsNum.ofInt 1)))

/-- Lines 114 and 122:
`Math.max((itinerary?.segments?.length || 1) - 1, 0)`, where the subtraction
converts its left operand to a number and may throw. -/
def stops (itinerary : JsVal) : Except String JsVal :=
  match Js.toNumber (Js.or (Js.optProp (Js.optProp itinerary "segments") "length")
      (.num (JsNum.ofInt 1))) with
  | .error e => .error e
  | .ok n => .ok (.num (JsNum.max (JsNum.sub n (JsNum.ofInt 1)) (JsNum.ofInt 0)))

/-- The callback given to `map` (lines 94-125): one raw offer to one
normalised offer. -/
def normalizeOffer (offer : JsVal) : Except String JsVal := do
  let itineraries := Js.or (← Js.getProp offer "itineraries") (.arr [])
  let outbound := Js.index itineraries (JsNum.ofInt 0)
  let inbound := Js.index itineraries (JsNum.ofInt 1)
  let firstOutbound := firstSegment outbound
  let lastOutbound ← lastSegment outbound
  let firstInbound := firstSegment inbound
  let lastInbound ← lastSegment inbound
  return .obj [
    ("id", ← Js.getProp offer "id"),
    ("price", Js.optProp (← Js.getProp offer "price") "total"),
    ("currency", Js.optProp (← Js.getProp offer "price") "currency"),
    ("validatingAirlineCodes", Js.or (← Js.getProp offer "validatingAirlineCodes") (.arr [])),
    ("outbound", .obj [
      ("departureAirport", Js.optProp (Js.optProp firstOutbound "departure") "iataCode"),
      ("departureTime", Js.optProp (Js.optProp firstOutbound "departure") "at"),
      ("arrivalAirport", Js.optProp (Js.optProp lastOutbound "arrival") "iataCode"),
      ("arrivalTime", Js.optProp (Js.optProp lastOutbound "arrival") "at"),
      ("duration", Js.optProp outbound "duration"),
      ("stops", ← stops outbound)]),
    ("inbound", .obj [
      ("departureAirport", Js.optProp (Js.optProp firstInbound "departure") "iataCode"),
      ("departureTime", Js.optProp (Js.optProp firstInbound "departure") "at"),
      ("arrivalAirport", Js.optProp (Js.optProp lastInbound "arrival") "iataCode"),
      ("arrivalTime", Js.optProp (Js.optProp lastInbound "arrival") "at"),
      ("duration", Js.optProp inbound "duration"),
      ("stops", ← stops inbound)])]

/-- The comparator given to `sort` (line 127):
`Number(a.price) - Number(b.price)`. -/
def comparePrice (a b : JsVal) : Except String JsNum := do
  let x ← Js.toNumber (← Js.getProp a "price")
  let y ← Js.toNumber (← Js.getProp b "price")
  return JsNum.sub x y

/-- Lines 93-127: `(searchData.data || []).map(...)` followed by the sort. -/
def buildOffers (searchData : JsVal) : Except String (List JsVal) := do
  match Js.or (← Js.getProp searchData "data") (.arr []) with
  | .arr raws =>
    let offers ← Js.arrayMap normalizeOffer raws
    Js.sortWith comparePrice offers
  | _ => throw "(searchData.data || []).map is not a function"

/-- What `res.status(status).json(payload)` sends. -/
structure Response where
  status : Nat
  payload : JsVal

/-- The flight-search request (lines 71-86): `URLSearchParams` converts the
four query fields to strings, then the template literal converts the access
token; each conversion may throw. -/
def searchRequest (env : Env) (origin destination departureDate returnDate : JsVal)
    (accessToken : JsVal) : Except String Request := do
  let originLocationCode ← Js.toStr origin
  let destinationLocationCode ← Js.toStr destination
  let departure ← Js.toStr departureDate
  let back ← Js.toStr returnDate
  let token ← Js.toStr accessToken
  return .get (AMADEUS_BASE env ++ "/v2/shopping/flight-offers")
    [("originLocationCode", originLocationCode),
     ("destinationLocationCode", destinationLocationCode),
     ("departureDate", departure),
     ("returnDate", back),
     ("adults", "1"),
     ("nonStop", "false"),
     ("currencyCode", "USD"),
     ("max", "12")]
    ("Bearer " ++ token)

/-- The route `POST /api/search-flights` (lines 58-133), given `req.body`. -/
def searchFlights (env : Env) (w : World) (c : TokenCache) (reqBody : JsVal) :
    Outcome Response :=
  let body := Js.or reqBody (.obj [])
  let origin := Js.prop body "origin"
  let destination := Js.prop body "destination"
  let departureDate := Js.prop body "departureDate"
  let returnDate := Js.prop body "returnDate"
  if !Js.truthy origin || !Js.truthy destination || !Js.truthy departureDate
      || !Js.truthy returnDate then
    ⟨⟨400, errorBody "origin, destination, departureDate, and returnDate are required."⟩, c, []⟩
  else if Js.strictEq origin destination then
    ⟨⟨400, errorBody "Origin and destination must be different."⟩, c, []⟩
  else
    let t := getAccessToken env w c
    match t.result with
    | .error e => ⟨⟨500, errorBody (errorMessage e)⟩, t.cache, t.requests⟩
    | .ok accessToken =>
      match searchRequest env origin destination departureDate returnDate accessToken with
      | .error e => ⟨⟨500, errorBody (errorMessage e)⟩, t.cache, t.requests⟩
      | .ok request =>
        match w.fetch request with
        | .error e => ⟨⟨500, errorBody (errorMessage e)⟩, t.cache, t.requests ++ [request]⟩
        | .ok searchResponse =>
          if !searchResponse.ok then
            ⟨⟨searchResponse.status,
                errorBody ("Flight search failed: " ++ searchResponse.text)⟩,
              t.cache, t.requests ++ [request]⟩
          else
            match searchResponse.json with
            | .error e =>
              ⟨⟨500, errorBody (errorMessage e)⟩, t.cache, t.requests ++ [request]⟩
            | .ok searchData =>
              match buildOffers searchData with
              | .error e =>
                ⟨⟨500, errorBody (errorMessage e)⟩, t.cache, t.requests ++ [request]⟩
              | .ok offers =>
                ⟨⟨200, .obj [("offers", .arr offers)]⟩, t.cache, t.requests ++ [request]⟩

end Server

/-! ## `src/netlify/functions/search-flights.js` -/

namespace Netlify

/-- The credential-exchange request of `getAccessToken` (lines 10-30). -/
def tokenRequest (env : Env) : Request :=
  .post (envOr env.AMADEUS_BASE_URL "https://test.api.amadeus.com" ++ "/v1/security/oauth2/token")
    "application/x-www-form-urlencoded"
    [("grant_type", "client_credentials"),
     ("client_id", env.AMADEUS_CLIENT_ID.getD ""),
     ("client_secret", env.AMADEUS_CLIENT_SECRET.getD "")]

/-- The function `getAccessToken` (lines 4-43). Line 38 replaces `cachedToken`
before line 39 converts the lifetime, so a conversion that throws leaves the new
token with the old expiry. -/
def getAccessToken (env : Env) (w : World) (c : TokenCache) : TokenOutcome :=
  let now := w.now
  if Js.truthy c.cachedToken && JsNum.lt now c.cachedTokenExpiresAt then
    ⟨.ok c.cachedToken, c, []⟩
  else
    let clientId := env.AMADEUS_CLIENT_ID
    let clientSecret := env.AMADEUS_CLIENT_SECRET
    if envMissing clientId || envMissing clientSecret then
      ⟨.error "Missing AMADEUS_CLIENT_ID or AMADEUS_CLIENT_SECRET", c, []⟩
    else
      match w.fetch (tokenRequest env) with
      | .error e => ⟨.error e, c, [tokenRequest env]⟩
      | .ok tokenResponse =>
        if !tokenResponse.ok then
          ⟨.error ("Token request failed: " ++ Nat.repr tokenResponse.status ++ " "
              ++ tokenResponse.text), c, [tokenRequest env]⟩
        else
          match tokenResponse.json with
          | .error e => ⟨.error e, c, [tokenRequest env]⟩
          | .ok tokenData =>
            match Js.getProp tokenData "access_token" with
            | .error e => ⟨.error e, c, [tokenRequest env]⟩
            | .ok token =>
              match Js.toNumber
                (Js.or (Js.prop tokenData "expires_in") (.num (JsNum.ofInt 1799))) with
              | .error e => ⟨.error e, ⟨token, c.cachedTokenExpiresAt⟩, [tokenRequest env]⟩
              | .ok expiresIn =>
                ⟨.ok token,
                  ⟨token, JsNum.add w.nowAtStore
                    (JsNum.mul (JsNum.sub expiresIn (JsNum.ofInt 60)) (JsNum.ofInt 1000))⟩,
                  [tokenRequest env]⟩

/-- What the handler returns: `statusCode`, `headers`, and `body`, kept as the
payload whose `JSON.stringify` text is sent. -/
structure Response where
  statusCode : Nat
  headers : List (String × String)
  body : JsVal

/-- The helper `json(statusCode, payload)` (lines 45-53). -/
def json (statusCode : Nat) (payload : JsVal) : Response :=
  ⟨statusCode, [("Content-Type", "application/json")], payload⟩

/-- The event given to the handler: its `httpMethod` and its `body`, a string
or `null`. -/
structure Event where
  httpMethod : String
  body : Option String

/-- Lines 101 and 103: `itinerary?.segments?.[0]`. -/
def firstSegment (itinerary : JsVal) : JsVal :=
  if Js.nullish (Js.optProp itinerary "segments") then .undefined
  else Js.index (Js.prop itinerary "segments") (JsNum.ofInt 0)

/-- Lines 102 and 104:
`itinerary?.segments?.[itinerary.segments.length - 1]`, where the subtraction
converts the length to a number and may throw. -/
def lastSegment (itinerary : JsVal) : Except String JsVal :=
  if Js.nullish (Js.optProp itinerary "segments") then .ok .undefined
  else
    match Js.toNumber (Js.prop (Js.prop itinerary "segments") "length") with
    | .error e => .error e
    | .ok n => .ok (Js.index (Js.prop itinerary "segments") (JsNum.sub n (JsNum.ofInt 1)))

/-- Lines 117 and 125:
`Math.max((itinerary?.segments?.length || 1) - 1, 0)`, where the subtraction
converts its left operand to a number and may throw. -/
def stops (itinerary : JsVal) : Except String JsVal :=
  match Js.toNumber (Js.or (Js.optProp (Js.optProp itinerary "segments") "length")
      (.num (JsNum.ofInt 1))) with
  | .error e => .error e
  | .ok n => .ok (.num (JsNum.max (JsNum.sub n (JsNum.ofInt 1)) (JsNum.ofInt 0)))

/-- The callback given to `map` (lines 97-128): one raw offer to one
normalised offer. -/
def normalizeOffer (offer : JsVal) : Except String JsVal := do
  let itineraries := Js.or (← Js.getProp offer "itineraries") (.arr [])
  let outbound := Js.index itineraries (JsNum.ofInt 0)
  let inbound := Js.index itineraries (JsNum.ofInt 1)
  let firstOutbound := firstSegment outbound
  let lastOutbound ← lastSegment outbound
  let firstInbound := firstSegment inbound
  let lastInbound ← lastSegment inbound
  return .obj [
    ("id", ← Js.getProp offer "id"),
    ("price", Js.optProp (← Js.getProp offer "price") "total"),
    ("currency", Js.optProp (← Js.getProp offer "price") "currency"),
    ("validatingAirlineCodes", Js.or (← Js.getProp offer "validatingAirlineCodes") (.arr [])),
    ("outbound", .obj [
      ("departureAirport", Js.optProp (Js.optProp firstOutbound "departure") "iataCode"),
      ("departureTime", Js.optProp (Js.optProp firstOutbound "departure") "at"),
      ("arrivalAirport", Js.optProp (Js.optProp lastOutbound "arrival") "iataCode"),
      ("arrivalTime", Js.optProp (Js.optProp lastOutbound "arrival") "at"),
      ("duration", Js.optProp outbound "duration"),
      ("stops", ← stops outbound)]),
    ("inbound", .obj [
      ("departureAirport", Js.optProp (Js.optProp firstInbound "departure") "iataCode"),
      ("departureTime", Js.optProp (Js.optProp firstInbound "departure") "at"),
      ("arrivalAirport", Js.optProp (Js.optProp lastInbound "arrival") "iataCode"),
      ("arrivalTime", Js.optProp (Js.optProp lastInbound "arrival") "at"),
      ("duration", Js.optProp inbound "duration"),
      ("stops", ← stops inbound)])]

/-- The comparator given to `sort` (line 130):
`Number(a.price) - Number(b.price)`. -/
def comparePrice (a b : JsVal) : Except String JsNum := do
  let x ← Js.toNumber (← Js.getProp a "price")
  let y ← Js.toNumber (← Js.getProp b "price")
  return JsNum.sub x y

/-- Lines 96-130: `(searchData.data || []).map(...)` followed by the sort. -/
def buildOffers (searchData : JsVal) : Except String (List JsVal) := do
  match Js.or (← Js.getProp searchData "data") (.arr []) with
  | .arr raws =>
    let offers ← Js.arrayMap normalizeOffer raws
    Js.sortWith comparePrice offers
  | _ => throw "(searchData.data || []).map is not a function"

/-- The flight-search request (lines 72-89): `URLSearchParams` converts the
four query fields to strings, then the template literal converts the access
token; each conversion may throw. -/
def searchRequest (env : Env) (origin destination departureDate returnDate : JsVal)
    (accessToken : JsVal) : Except String Request := do
  let base := envOr env.AMADEUS_BASE_URL "https://test.api.amadeus.com"
  let originLocationCode ← Js.toStr origin
  let destinationLocationCode ← Js.toStr destination
  let departure ← Js.toStr departureDate
  let back ← Js.toStr returnDate
  let token ← Js.toStr accessToken
  return .get (base ++ "/v2/shopping/flight-offers")
    [("originLocationCode", originLocationCode),
     ("destinationLocationCode", destinationLocationCode),
     ("departureDate", departure),
     ("returnDate", back),
     ("adults", "1"),
     ("nonStop", "false"),
     ("currencyCode", "USD"),
     ("max", "12")]
    ("Bearer " ++ token)

/-- Line 61: `event.body ? JSON.parse(event.body) : {}`, where `jsonParse` is
`JSON.parse`, which returns the decoded value or throws a `SyntaxError`. -/
def parseBody (jsonParse : String → Except String JsVal) (event : Event) :
    Except String JsVal :=
  match event.body with
  | some text => if text = "" then .ok (.obj []) else jsonParse text
  | none => .ok (.obj [])

/-- Line 62: the destructuring of `body`, which throws a `TypeError` when
`body` is `null` or `undefined`. -/
def destructureBody (body : JsVal) : Except String (JsVal × JsVal × JsVal × JsVal) :=
  match body with
  | .undefined =>
    .error "Cannot destructure property \x27origin\x27 of \x27body\x27 as it is undefined."
  | .null => .error "Cannot destructure property \x27origin\x27 of \x27body\x27 as it is null."
  | _ =>
    .ok (Js.prop body "origin", Js.prop body "destination", Js.prop body "departureDate",
      Js.prop body "returnDate")

/-- The function `exports.handler` (lines 55-135). -/
def handler (jsonParse : String → Except String JsVal) (env : Env) (w : World)
    (c : TokenCache) (event : Event) : Outcome Response :=
  if event.httpMethod ≠ "POST" then
    ⟨json 405 (errorBody "Method Not Allowed"), c, []⟩
  else
    match parseBody jsonParse event with
    | .error e => ⟨json 500 (errorBody (errorMessage e)), c, []⟩
    | .ok body =>
      match destructureBody body with
      | .error e => ⟨json 500 (errorBody (errorMessage e)), c, []⟩
      | .ok (origin, destination, departureDate, returnDate) =>
        if !Js.truthy origin || !Js.truthy destination || !Js.truthy departureDate
            || !Js.truthy returnDate then
          ⟨json 400
            (errorBody "origin, destination, departureDate, and returnDate are required."),
            c, []⟩
        else if Js.strictEq origin destination then
          ⟨json 400 (errorBody "Origin and destination must be different."), c, []⟩
        else
          let t := getAccessToken env w c
          match t.result with
          | .error e => ⟨json 500 (errorBody (errorMessage e)), t.cache, t.requests⟩
          | .ok accessToken =>
            match searchRequest env origin destination departureDate returnDate
              accessToken with
            | .error e => ⟨json 500 (errorBody (errorMessage e)), t.cache, t.requests⟩
            | .ok request =>
              match w.fetch request with
              | .error e =>
                ⟨json 500 (errorBody (errorMessage e)), t.cache, t.requests ++ [request]⟩
              | .ok searchResponse =>
                if !searchResponse.ok then
                  ⟨json searchResponse.status
                    (errorBody ("Flight search failed: " ++ searchResponse.text)),
                    t.cache, t.requests ++ [request]⟩
                else
                  match searchResponse.json with
                  | .error e =>
                    ⟨json 500 (errorBody (errorMessage e)), t.cache, t.requests ++ [request]⟩
                  | .ok searchData =>
                    match buildOffers searchData with
                    | .error e =>
                      ⟨json 500 (errorBody (errorMessage e)), t.cache,
                        t.requests ++ [request]⟩
                    | .ok offers =>
                      ⟨json 200 (.obj [("offers", .arr offers)]), t.cache,
                        t.requests ++ [request]⟩

end Netlify

/-! ## The two copies side by side -/

/-- The two copies of the pipeline: `server.js` and the Netlify function. -/
inductive Copy where
  | server
  | netlify
  deriving DecidableEq, Repr

/-- What the client of either copy receives: the status code and the payload
whose JSON text is the response body. -/
structure Reply where
  status : Nat
  payload : JsVal

namespace Copy

/-- The function `getAccessToken` of the given copy. -/
def getAccessToken : Copy → Env → World → TokenCache → TokenOutcome
  | server => Server.getAccessToken
  | netlify => Netlify.getAccessToken

/-- The credential-exchange request of the given copy. -/
def tokenRequest : Copy → Env → Request
  | server => Server.tokenRequest
  | netlify => Netlify.tokenRequest

/-- The flight-search request of the given copy. -/
def searchRequest : Copy → Env → JsVal → JsVal → JsVal → JsVal → JsVal → Except String Request
  | server => Server.searchRequest
  | netlify => Netlify.searchRequest

/-- The offer normalisation of the given copy. -/
def normalizeOffer : Copy → JsVal → Except String JsVal
  | server => Server.normalizeOffer
  | netlify => Netlify.normalizeOffer

/-- The search handler of the given copy on a `POST` request whose body is the
JSON text `text` decoding to `body`: the Express route receives `body` as
`req.body`, the Netlify handler receives `text` as `event.body`. -/
def search (k : Copy) (jsonParse : String → Except String JsVal) (env : Env) (w : World)
    (c : TokenCache) (text : String) (body : JsVal) : Outcome Reply :=
  match k with
  | server =>
    let out := Server.searchFlights env w c body
    ⟨⟨out.response.status, out.response.payload⟩, out.cache, out.requests⟩
  | netlify =>
    let out := Netlify.handler jsonParse env w c ⟨"POST", some text⟩
    ⟨⟨out.response.statusCode, out.response.body⟩, out.cache, out.requests⟩

end Copy

/-! ## Vocabulary of the specification -/

/-- A query field that is missing (`undefined`, or JSON `null`) or empty. -/
def missingOrEmpty (v : JsVal) : Prop :=
  v = .undefined ∨ v = .null ∨ v = .str ""

/-- Whether a value is a primitive (not an array, an object or a function). -/
def isPrimitive : JsVal → Bool
  | .arr _ => false
  | .obj _ => false
  | .builtin _ => false
  | _ => true

/-- A valid search query: the four fields of the request body are the
non-empty strings `o`, `d`, `dd`, `rd`, and origin differs from destination. -/
def validQuery (fields : List (String × JsVal)) (o d dd rd : String) : Prop :=
  Js.lookup fields "origin" = .str o ∧ Js.lookup fields "destination" = .str d
    ∧ Js.lookup fields "departureDate" = .str dd ∧ Js.lookup fields "returnDate" = .str rd
    ∧ o ≠ "" ∧ d ≠ "" ∧ dd ≠ "" ∧ rd ≠ "" ∧ o ≠ d

/-- The price of a normalised offer interpreted as a number: `Number(price)`. -/
def priceKey (offer : JsVal) : Except String JsNum := Js.toNumber (Js.prop offer "price")

/-- The price of a normalised offer parses as a number: `Number(price)` does
not throw and is not `NaN`. -/
def numericPrice (offer : JsVal) : Prop :=
  ∃ key, priceKey offer = .ok key ∧ key.isNaN = false

/-- Ascending order of price compared as a number. -/
def sortedByPrice (offers : List JsVal) : Prop :=
  offers.Pairwise (fun a b =>
    ∃ x y, priceKey a = .ok x ∧ priceKey b = .ok y ∧ JsNum.le x y = true)

/-- The segment count of an itinerary converts to a number: the subtractions
`segments.length - 1` do not throw. It does whenever the itinerary or its
segments are absent and whenever the segments are a list. -/
def segmentCountConverts (itinerary : JsVal) : Prop :=
  ∃ n, Js.toNumber (Js.optProp (Js.optProp itinerary "segments") "length") = .ok n

/-- The name of the normalised leg built from itinerary `i`. -/
def legName (i : Nat) : String := if i = 0 then "outbound" else "inbound"

/-- A normalised leg with the given six fields. -/
def legObject (departureAirport departureTime arrivalAirport arrivalTime duration : JsVal)
    (stops : Int) : JsVal :=
  .obj [("departureAirport", departureAirport), ("departureTime", departureTime),
    ("arrivalAirport", arrivalAirport), ("arrivalTime", arrivalTime),
    ("duration", duration), ("stops", .num (JsNum.ofInt stops))]

/-- The normalised leg read off a first segment, a last segment, the itinerary
and a stop count, as lines 109-115 and 117-123 build it. -/
def legOf (first last itinerary stops : JsVal) : JsVal :=
  .obj [("departureAirport", Js.optProp (Js.optProp first "departure") "iataCode"),
    ("departureTime", Js.optProp (Js.optProp first "departure") "at"),
    ("arrivalAirport", Js.optProp (Js.optProp last "arrival") "iataCode"),
    ("arrivalTime", Js.optProp (Js.optProp last "arrival") "at"),
    ("duration", Js.optProp itinerary "duration"),
    ("stops", stops)]

/-- Itinerary `i` of a raw offer: `(offer.itineraries || [])[i]`. -/
def itineraryOf (fields : List (String × JsVal)) (i : Nat) : JsVal :=
  Js.index (Js.or (Js.lookup fields "itineraries") (.arr [])) (JsNum.ofInt i)

/-- A normalised leg every field of which is absent, with `stops = 0`. -/
def absentLeg : JsVal :=
  legObject .undefined .undefined .undefined .undefined .undefined 0

/-- Whether the module state holds a token that is still valid at `now`
(line 22 of `server.js`, line 6 of the Netlify function). -/
def cacheValid (c : TokenCache) (now : JsNum) : Bool :=
  Js.truthy c.cachedToken && JsNum.lt now c.cachedTokenExpiresAt

/-! ## Sample inputs -/

namespace Sample

/-- A configuration with both secrets set and the default base URL. -/
def env : Env := ⟨none, some "client-id", some "client-secret"⟩

/-- A configuration without the client secret. -/
def envNoSecret : Env := ⟨none, some "client-id", none⟩

/-- The query `JFK -> LAX`, out on 2025-06-01, back on 2025-06-10. -/
def queryFields : List (String × JsVal) :=
  [("origin", .str "JFK"), ("destination", .str "LAX"),
   ("departureDate", .str "2025-06-01"), ("returnDate", .str "2025-06-10")]

/-- The JSON text of `queryFields`. -/
def queryText : String :=
  "\x7b\"origin\":\"JFK\",\"destination\":\"LAX\",\"departureDate\":\"2025-06-01\",\"returnDate\":\"2025-06-10\"\x7d"

/-- A query whose origin equals its destination. -/
def sameAirportFields : List (String × JsVal) :=
  [("origin", .str "JFK"), ("destination", .str "JFK"),
   ("departureDate", .str "2025-06-01"), ("returnDate", .str "2025-06-10")]

/-- The JSON text of `sameAirportFields`. -/
def sameAirportText : String :=
  "\x7b\"origin\":\"JFK\",\"destination\":\"JFK\",\"departureDate\":\"2025-06-01\",\"returnDate\":\"2025-06-10\"\x7d"

/-- A query whose origin and destination are two arrays `["JFK"]`. -/
def arrayAirportFields : List (String × JsVal) :=
  [("origin", .arr [.str "JFK"]), ("destination", .arr [.str "JFK"]),
   ("departureDate", .str "2025-06-01"), ("returnDate", .str "2025-06-10")]

/-- The JSON text of `arrayAirportFields`. -/
def arrayAirportText : String :=
  "\x7b\"origin\":[\"JFK\"],\"destination\":[\"JFK\"],\"departureDate\":\"2025-06-01\",\"returnDate\":\"2025-06-10\"\x7d"

/-- A query without a return date. -/
def noReturnFields : List (String × JsVal) :=
  [("origin", .str "JFK"), ("destination", .str "LAX"), ("departureDate", .str "2025-06-01")]

/-- The JSON text of `noReturnFields`. -/
def noReturnText : String :=
  "\x7b\"origin\":\"JFK\",\"destination\":\"LAX\",\"departureDate\":\"2025-06-01\"\x7d"

/-- The function `JSON.parse` on the sample texts. -/
def jsonParse (text : String) : Except String JsVal :=
  if text = queryText then .ok (.obj queryFields)
  else if text = sameAirportText then .ok (.obj sameAirportFields)
  else if text = arrayAirportText then .ok (.obj arrayAirportFields)
  else if text = noReturnText then .ok (.obj noReturnFields)
  else if text = "null" then .ok .null
  else .error "Unexpected token in JSON"

/-- A raw segment from airport `a` to airport `b`. -/
def segment (a ta b tb : String) : JsVal :=
  .obj [("departure", .obj [("iataCode", .str a), ("at", .str ta)]),
        ("arrival", .obj [("iataCode", .str b), ("at", .str tb)])]

/-- The outbound itinerary `JFK -> ORD -> LAX`, two segments. -/
def outboundItinerary : List (String × JsVal) :=
  [("duration", .str "PT8H10M"),
   ("segments", .arr [
      segment "JFK" "2025-06-01T08:00:00" "ORD" "2025-06-01T10:00:00",
      segment "ORD" "2025-06-01T11:00:00" "LAX" "2025-06-01T13:10:00"])]

/-- The inbound itinerary `LAX -> JFK`, one segment. -/
def inboundItinerary : List (String × JsVal) :=
  [("duration", .str "PT5H30M"),
   ("segments", .arr [segment "LAX" "2025-06-10T09:00:00" "JFK" "2025-06-10T17:30:00"])]

/-- The itinerary `\x7b"segments":\x7b"length":\x7b"toString":1\x7d\x7d\x7d`: its segments are
an object whose `length` is an object that cannot be converted to a number. -/
def brokenItinerary : List (String × JsVal) :=
  [("segments", .obj [("length", .obj [("toString", .num (JsNum.ofInt 1))])])]

/-- A raw round-trip offer with the given identifier and price. -/
def rawOfferFields (id price : String) : List (String × JsVal) :=
  [("id", .str id),
   ("itineraries", .arr [.obj outboundItinerary, .obj inboundItinerary]),
   ("price", .obj [("currency", .str "USD"), ("total", .str price)]),
   ("validatingAirlineCodes", .arr [.str "AA"])]

/-- A raw offer with the outbound itinerary only. -/
def oneWayOfferFields : List (String × JsVal) :=
  [("id", .str "7"),
   ("itineraries", .arr [.obj outboundItinerary]),
   ("price", .obj [("currency", .str "USD"), ("total", .str "120.00")])]

/-- A raw offer whose only itinerary carries a duration and no segments. -/
def noSegmentsOfferFields : List (String × JsVal) :=
  [("id", .str "9"), ("itineraries", .arr [.obj [("duration", .str "PT5H")]])]

/-- A raw offer priced 100.00 whose outbound itinerary has two segments and
whose inbound itinerary is `brokenItinerary`. -/
def brokenInboundFields : List (String × JsVal) :=
  [("id", .str "4"),
   ("itineraries", .arr [.obj outboundItinerary, .obj brokenItinerary]),
   ("price", .obj [("currency", .str "USD"), ("total", .str "100.00")])]

/-- A raw offer priced 100.00 whose only itinerary is `brokenItinerary`. -/
def brokenOutboundFields : List (String × JsVal) :=
  [("id", .str "5"),
   ("itineraries", .arr [.obj brokenItinerary]),
   ("price", .obj [("currency", .str "USD"), ("total", .str "100.00")])]

/-- A raw offer whose outbound itinerary carries a duration and no segments
and whose inbound itinerary is `brokenItinerary`. -/
def noSegmentsBrokenFields : List (String × JsVal) :=
  [("id", .str "6"),
   ("itineraries", .arr [.obj [("duration", .str "PT5H")], .obj brokenItinerary])]

/-- The normalised form expected of `rawOfferFields id price`. -/
def normalized (id price : String) : JsVal :=
  .obj [("id", .str id), ("price", .str price), ("currency", .str "USD"),
    ("validatingAirlineCodes", .arr [.str "AA"]),
    ("outbound", legObject (.str "JFK") (.str "2025-06-01T08:00:00") (.str "LAX")
      (.str "2025-06-01T13:10:00") (.str "PT8H10M") 1),
    ("inbound", legObject (.str "LAX") (.str "2025-06-10T09:00:00") (.str "JFK")
      (.str "2025-06-10T17:30:00") (.str "PT5H30M") 0)]

/-- The normalised offers expected of `rawOffers`, in upstream order. -/
def normalizedOffers : List JsVal :=
  [normalized "1" "250.00", normalized "2" "99.50", normalized "3" "400.10"]

/-- The offers of the sample search response, priced 250.00, 99.50, 400.10. -/
def rawOffers : List JsVal :=
  [.obj (rawOfferFields "1" "250.00"), .obj (rawOfferFields "2" "99.50"),
   .obj (rawOfferFields "3" "400.10")]

/-- The decoded body of the sample search response. -/
def searchFields : List (String × JsVal) := [("data", .arr rawOffers)]

/-- The decoded body of a token response declaring the given lifetime. -/
def tokenFields (expiresIn : JsVal) : List (String × JsVal) :=
  [("access_token", .str "token-1"), ("expires_in", expiresIn)]

/-- A world in which the token endpoint and the search endpoint answer with the
given responses, entered at time 1000000 with the token stored at 1000250. -/
def world (tokenResponse searchResponse : HttpResponse) : World :=
  { now := JsNum.ofInt 1000000
    nowAtStore := JsNum.ofInt 1000250
    fetch := fun request =>
      match request with
      | .post _ _ _ => .ok tokenResponse
      | .get _ _ _ => .ok searchResponse }

/-- A successful token response declaring the given lifetime. -/
def tokenOk (expiresIn : JsVal) : HttpResponse :=
  ⟨200, "", .ok (.obj (tokenFields expiresIn))⟩

/-- The successful search response carrying `rawOffers`. -/
def searchOk : HttpResponse := ⟨200, "", .ok (.obj searchFields)⟩

/-- A successful search response without offers. -/
def searchEmpty : HttpResponse := ⟨200, "", .ok (.obj [("data", .arr [])])⟩

/-- A successful search response with one offer, priced 100.00, whose inbound
itinerary is `brokenItinerary`. -/
def searchBroken : HttpResponse :=
  ⟨200, "", .ok (.obj [("data", .arr [.obj brokenInboundFields])])⟩

/-- The world in which both endpoints succeed. -/
def worldOk : World := world (tokenOk (.num (JsNum.ofInt 3600))) searchOk

/-- The world in which the search succeeds without offers. -/
def worldEmpty : World := world (tokenOk (.num (JsNum.ofInt 3600))) searchEmpty

/-- The world in which the search response is `searchBroken`. -/
def worldBroken : World := world (tokenOk (.num (JsNum.ofInt 3600))) searchBroken

/-- The world in which the search endpoint answers 503 `unavailable`. -/
def worldSearchDown : World :=
  world (tokenOk (.num (JsNum.ofInt 3600))) ⟨503, "unavailable", .error "Unexpected token"⟩

/-- The world in which the token endpoint answers 401 `invalid_client`. -/
def worldTokenDenied : World :=
  world ⟨401, "invalid_client", .error "Unexpected token"⟩ searchOk

/-- The world in which the token response declares the given lifetime. -/
def worldLifetime (expiresIn : JsVal) : World := world (tokenOk expiresIn) searchOk

/-- The flight-search request of the sample query with the sample token. -/
def searchRequest : Request :=
  .get "https://test.api.amadeus.com/v2/shopping/flight-offers"
    [("originLocationCode", "JFK"), ("destinationLocationCode", "LAX"),
     ("departureDate", "2025-06-01"), ("returnDate", "2025-06-10"),
     ("adults", "1"), ("nonStop", "false"), ("currencyCode", "USD"), ("max", "12")]
    "Bearer token-1"

/-- A module state holding a token that expires at 2000000. -/
def warmCache : TokenCache := ⟨.str "cached-token", JsNum.ofInt 2000000⟩

/-- A module state holding a token that expired at 1000000. -/
def expiredCache : TokenCache := ⟨.str "cached-token", JsNum.ofInt 1000000⟩

end Sample

/-! ## Rounding to the nearest double -/

namespace JsNum

theorem unit_pos : 0 < unit := by
  unfold unit
  positivity

theorem two_pow_dvd (a b : Nat) (h : a ≤ b) : 2 ^ a ∣ 2 ^ b :=
  Nat.pow_dvd_pow 2 h

theorem two_pow_le (a b : Nat) (h : a ≤ b) : 2 ^ a ≤ 2 ^ b :=
  Nat.pow_le_pow_right (by decide) h

/-- The binary search returns `acc + t` with `2^t <= n < 2^(t+1)`. -/
theorem log2Search_spec (i : Nat) : ∀ (n acc : Nat), 0 < n → n < 2 ^ (2 ^ i) →
    ∃ t, log2Search i n acc = acc + t ∧ 2 ^ t ≤ n ∧ n < 2 ^ (t + 1) := by
  induction i with
  | zero =>
    intro n acc hpos hlt
    refine ⟨0, by simp [log2Search], ?_, ?_⟩
    · simpa using hpos
    · simpa using hlt
  | succ i ih =>
    intro n acc hpos hlt
    have hc : (0 : Nat) < 2 ^ (2 ^ i) := by positivity
    have hsq : (2 : Nat) ^ (2 ^ (i + 1)) = 2 ^ (2 ^ i) * 2 ^ (2 ^ i) := by
      rw [← pow_add]
      congr 1
      rw [pow_succ]
      ring
    unfold log2Search
    split
    · rename_i hge
      have hq : 0 < n / 2 ^ (2 ^ i) := Nat.div_pos hge hc
      have hqlt : n / 2 ^ (2 ^ i) < 2 ^ (2 ^ i) := by
        rw [Nat.div_lt_iff_lt_mul hc]
        rw [hsq] at hlt
        exact hlt
      obtain ⟨t, ht, hlo, hhi⟩ := ih (n / 2 ^ (2 ^ i)) (acc + 2 ^ i) hq hqlt
      refine ⟨2 ^ i + t, by rw [ht]; ring, ?_, ?_⟩
      · rw [pow_add]
        calc 2 ^ (2 ^ i) * 2 ^ t ≤ 2 ^ (2 ^ i) * (n / 2 ^ (2 ^ i)) :=
              Nat.mul_le_mul_left _ hlo
          _ ≤ n := Nat.mul_div_le n _
      · have h1 : n < (n / 2 ^ (2 ^ i) + 1) * 2 ^ (2 ^ i) := by
          rw [Nat.add_mul, Nat.one_mul]
          exact Nat.lt_div_mul_add hc
        have h2 : n / 2 ^ (2 ^ i) + 1 ≤ 2 ^ (t + 1) := hhi
        calc n < (n / 2 ^ (2 ^ i) + 1) * 2 ^ (2 ^ i) := h1
          _ ≤ 2 ^ (t + 1) * 2 ^ (2 ^ i) := Nat.mul_le_mul_right _ h2
          _ = 2 ^ (2 ^ i + t + 1) := by rw [← pow_add]; congr 1; ring
    · rename_i hge
      exact ih n acc hpos (Nat.lt_of_not_le hge)

theorem floorLog2_spec (n : Nat) (hpos : 0 < n) (hlt : n < 2 ^ 4096) :
    2 ^ floorLog2 n ≤ n ∧ n < 2 ^ (floorLog2 n + 1) := by
  have h : (4096 : Nat) = 2 ^ 12 := by norm_num
  rw [h] at hlt
  obtain ⟨t, ht, hlo, hhi⟩ := log2Search_spec 12 n 0 hpos hlt
  unfold floorLog2
  rw [ht, Nat.zero_add]
  exact ⟨hlo, hhi⟩

theorem le_divRoundEven (num den : Nat) : num / den ≤ divRoundEven num den := by
  unfold divRoundEven
  split
  · exact le_refl _
  · split
    · exact Nat.le_succ _
    · split
      · exact le_refl _
      · exact Nat.le_succ _

theorem divRoundEven_of_dvd (num den : Nat) (hden : 0 < den) (h : den ∣ num) :
    divRoundEven num den = num / den := by
  unfold divRoundEven
  rw [Nat.mod_eq_zero_of_dvd h]
  simp [hden]

/-- Rounding never turns a positive number of units into zero. -/
theorem roundPos_pos (n r : Nat) (hn : 0 < n) (h : roundPos n 1 = some r) : 0 < r := by
  unfold roundPos at h
  simp only [Nat.div_one, Nat.one_mul] at h
  split at h
  · simp only [Option.some.injEq] at h
    rw [← h, divRoundEven_of_dvd n 1 Nat.one_pos (one_dvd n), Nat.div_one]
    exact hn
  · split at h
    · exact absurd h (by simp)
    · rename_i h53 h2098
      have hlt : n < 2 ^ 4096 :=
        lt_of_lt_of_le (Nat.lt_of_not_le h2098)
          (two_pow_le 2098 4096 (by decide))
      obtain ⟨hlo, _⟩ := floorLog2_spec n hn hlt
      have hs : 2 ^ (floorLog2 n - 52) ≤ n :=
        le_trans (Nat.pow_le_pow_right (by decide) (Nat.sub_le _ _)) hlo
      have hpow : 0 < 2 ^ (floorLog2 n - 52) := by positivity
      have hq : 0 < n / 2 ^ (floorLog2 n - 52) := Nat.div_pos hs hpow
      have hd : 0 < divRoundEven n (2 ^ (floorLog2 n - 52)) :=
        lt_of_lt_of_le hq (le_divRoundEven _ _)
      split at h
      · exact absurd h (by simp)
      · simp only [Option.some.injEq] at h
        rw [← h]
        exact Nat.mul_pos hd hpow

/-- A value of fewer than `2^53` whole units of `1`, given as a fraction with
denominator `den`, is a double: rounding returns it unchanged. -/
theorem roundPos_exact (c den : Nat) (hc : c < 2 ^ 53) (hden : 0 < den) :
    roundPos (c * unit * den) den = some (c * unit) := by
  unfold roundPos
  have hdiv : c * unit * den / den = c * unit := Nat.mul_div_cancel _ hden
  rw [hdiv]
  by_cases hc0 : c = 0
  · subst hc0
    simp only [Nat.zero_mul]
    rw [if_pos (by positivity)]
    simp only [divRoundEven, Nat.zero_mod, Nat.zero_div, Nat.mul_zero]
    rw [if_pos hden]
  · have hcpos : 0 < c := Nat.pos_of_ne_zero hc0
    have hupos := unit_pos
    have hge : ¬ c * unit < 2 ^ 53 := by
      have h1 : (2 : Nat) ^ 53 ≤ unit := by
        unfold unit
        exact two_pow_le 53 1074 (by decide)
      have h2 : unit ≤ c * unit := Nat.le_mul_of_pos_left _ hcpos
      exact Nat.not_lt_of_le (le_trans h1 h2)
    have hub : c * unit < 2 ^ 1127 := by
      have h1 : c * unit < 2 ^ 53 * unit := Nat.mul_lt_mul_of_pos_right hc hupos
      have h2 : (2 : Nat) ^ 53 * unit = 2 ^ 1127 := by
        unfold unit
        rw [← pow_add]
      rw [h2] at h1
      exact h1
    have hlt2098 : ¬ 2 ^ 2098 ≤ c * unit :=
      Nat.not_le_of_lt (lt_of_lt_of_le hub
        (two_pow_le 1127 2098 (by decide)))
    have hlt4096 : c * unit < 2 ^ 4096 :=
      lt_of_lt_of_le hub (two_pow_le 1127 4096 (by decide))
    obtain ⟨hlo, _⟩ := floorLog2_spec (c * unit) (Nat.mul_pos hcpos hupos) hlt4096
    have hfl : floorLog2 (c * unit) < 1127 := by
      by_contra hcon
      have h1 : (2 : Nat) ^ 1127 ≤ 2 ^ floorLog2 (c * unit) :=
        two_pow_le 1127 _ (Nat.le_of_not_lt hcon)
      exact absurd (lt_of_le_of_lt (le_trans h1 hlo) hub) (lt_irrefl _)
    have hs : floorLog2 (c * unit) - 52 ≤ 1074 := by omega
    have hdvd : 2 ^ (floorLog2 (c * unit) - 52) ∣ c * unit := by
      have h1 : 2 ^ (floorLog2 (c * unit) - 52) ∣ unit := by
        unfold unit
        exact two_pow_dvd _ 1074 hs
      exact Dvd.dvd.mul_left h1 c
    have hpow : 0 < 2 ^ (floorLog2 (c * unit) - 52) := by positivity
    have hdvd2 : den * 2 ^ (floorLog2 (c * unit) - 52) ∣ c * unit * den := by
      rw [Nat.mul_comm den]
      exact Nat.mul_dvd_mul hdvd (dvd_refl den)
    have hval : divRoundEven (c * unit * den) (den * 2 ^ (floorLog2 (c * unit) - 52))
        * 2 ^ (floorLog2 (c * unit) - 52) = c * unit := by
      rw [divRoundEven_of_dvd _ _ (Nat.mul_pos hden hpow) hdvd2]
      rw [Nat.mul_comm (c * unit) den, Nat.mul_div_mul_left _ _ hden]
      exact Nat.div_mul_cancel hdvd
    rw [hval, if_neg hge, if_neg hlt2098, if_neg hlt2098]

theorem roundInt_exact (z : Int) (hz : z.natAbs < 2 ^ 53) :
    roundInt (z * unit) = fin (z * unit) := by
  have habs : (z * (unit : Int)).natAbs = z.natAbs * unit * 1 := by
    rw [Int.natAbs_mul, Int.natAbs_ofNat, Nat.mul_one]
  have hupos : (0 : Int) < (unit : Int) := by exact_mod_cast unit_pos
  have hr := roundPos_exact z.natAbs 1 hz Nat.one_pos
  rw [← habs] at hr
  by_cases hneg : z < 0
  · have h1 : z * (unit : Int) < 0 := Int.mul_neg_of_neg_of_pos hneg hupos
    have hval : -((z.natAbs * unit : Nat) : Int) = z * unit := by
      push_cast
      rw [abs_of_neg hneg]
      ring
    unfold roundInt round
    rw [hr, decide_eq_true h1]
    show fin (-((z.natAbs * unit : Nat) : Int)) = fin (z * unit)
    rw [hval]
  · have hz0 : 0 ≤ z := Int.not_lt.mp hneg
    have h1 : ¬ z * (unit : Int) < 0 :=
      Int.not_lt.mpr (Int.mul_nonneg hz0 (le_of_lt hupos))
    have hval : ((z.natAbs * unit : Nat) : Int) = z * unit := by
      push_cast
      rw [abs_of_nonneg hz0]
    unfold roundInt round
    rw [hr, decide_eq_false h1]
    show fin ((z.natAbs * unit : Nat) : Int) = fin (z * unit)
    rw [hval]

/-- The sign of a rounded integer number of units is the sign of the
integer. -/
theorem lt_zero_roundInt (z : Int) : lt (fin 0) (roundInt z) = decide (0 < z) := by
  unfold roundInt round
  cases hr : roundPos z.natAbs 1 with
  | none =>
    by_cases hneg : z < 0
    · simp [hneg, lt]
      omega
    · have hz0 : z ≠ 0 := by
        intro h0
        subst h0
        simp [roundPos, divRoundEven] at hr
      have hpos : 0 < z := by omega
      simp [hneg, lt, hpos]
  | some r =>
    by_cases hneg : z < 0
    · simp [hneg, lt]
      omega
    · by_cases h0 : z = 0
      · subst h0
        simp [roundPos, divRoundEven] at hr
        simp [lt, ← hr]
      · have hpos : 0 < z := by omega
        have hn : 0 < z.natAbs := Int.natAbs_pos.mpr h0
        have hrpos := roundPos_pos z.natAbs r hn hr
        simp [hneg, lt, hpos, hrpos]

/-- The sign test of the comparator: `a - b > 0` exactly when `b < a`. -/
theorem zero_lt_sub (a b : JsNum) : lt (ofInt 0) (sub a b) = lt b a := by
  have h0 : ofInt 0 = fin 0 := by simp [ofInt]
  rw [h0]
  cases a with
  | fin x =>
    cases b with
    | fin y =>
      show lt (fin 0) (roundInt (x + -y)) = decide (y < x)
      rw [lt_zero_roundInt]
      congr 1
      apply propext
      constructor <;> intro h <;> omega
    | _ => rfl
  | _ => cases b <;> rfl

/-- On numbers other than `NaN`, `b < a` fails exactly when `a <= b`. -/
theorem le_of_not_lt (a b : JsNum) (ha : a.isNaN = false) (hb : b.isNaN = false)
    (h : lt b a = false) : le a b = true := by
  cases a <;> cases b <;> simp_all [lt, le, isNaN]

theorem le_of_lt_true (a b : JsNum) (h : lt a b = true) : le a b = true := by
  cases a <;> cases b <;> simp_all [lt, le]
  omega

theorem le_trans_true (a b c : JsNum) (hab : le a b = true) (hbc : le b c = true) :
    le a c = true := by
  cases a <;> cases b <;> cases c <;> simp_all [le]
  omega

theorem lt_false_of_le (a b : JsNum) (h : le a b = true) : lt b a = false := by
  cases a <;> cases b <;> simp_all [lt, le]

end JsNum

/-! ## Exact arithmetic on small integers -/

namespace JsNum

theorem round_some (negative : Bool) (num den n : Nat) (h : roundPos num den = some n) :
    round negative num den = if negative then fin (-(n : Int)) else fin n := by
  unfold round
  rw [h]

theorem add_ofInt (a b : Int) (h : (a + b).natAbs < 2 ^ 53) :
    add (ofInt a) (ofInt b) = ofInt (a + b) := by
  show roundInt (a * unit + b * unit) = fin ((a + b) * unit)
  rw [← Int.add_mul]
  exact roundInt_exact _ h

theorem sub_ofInt (a b : Int) (h : (a - b).natAbs < 2 ^ 53) :
    sub (ofInt a) (ofInt b) = ofInt (a - b) := by
  show roundInt (a * unit + -(b * unit)) = fin ((a - b) * unit)
  have h1 : a * (unit : Int) + -(b * unit) = (a - b) * unit := by ring
  rw [h1]
  exact roundInt_exact _ h

theorem mul_ofInt (a b : Int) (h : (a * b).natAbs < 2 ^ 53) :
    mul (ofInt a) (ofInt b) = ofInt (a * b) := by
  have hupos : (0 : Int) < (unit : Int) := by exact_mod_cast unit_pos
  have habs : (a * (unit : Int) * (b * unit)).natAbs = (a * b).natAbs * unit * unit := by
    have h1 : a * (unit : Int) * (b * unit) = a * b * unit * unit := by ring
    rw [h1, Int.natAbs_mul, Int.natAbs_mul, Int.natAbs_ofNat]
  have hr := roundPos_exact (a * b).natAbs unit h unit_pos
  rw [← habs] at hr
  have hsign : (a * (unit : Int) * (b * unit) < 0) ↔ a * b < 0 := by
    have h1 : a * (unit : Int) * (b * unit) = a * b * (unit * unit) := by ring
    rw [h1]
    constructor
    · intro hlt
      by_contra hcon
      have : 0 ≤ a * b * ((unit : Int) * unit) :=
        Int.mul_nonneg (Int.not_lt.mp hcon) (le_of_lt (Int.mul_pos hupos hupos))
      omega
    · intro hlt
      exact Int.mul_neg_of_neg_of_pos hlt (Int.mul_pos hupos hupos)
  show round (decide (a * (unit : Int) * (b * unit) < 0)) (a * (unit : Int) * (b * unit)).natAbs
    unit = fin (a * b * unit)
  rw [round_some _ _ _ _ hr]
  by_cases hneg : a * b < 0
  · rw [decide_eq_true (hsign.mpr hneg), if_pos rfl]
    apply congrArg
    push_cast
    rw [abs_of_neg hneg]
    ring
  · rw [decide_eq_false (fun hc => hneg (hsign.mp hc)), if_neg (by decide)]
    apply congrArg
    push_cast
    rw [abs_of_nonneg (Int.not_lt.mp hneg)]

theorem ofInt_zero : ofInt 0 = fin 0 := by
  show fin (0 * (unit : Int)) = fin 0
  rw [Int.zero_mul]

theorem toIndex_ofInt (n : Nat) : (ofInt n).toIndex? = some n := by
  have hupos : (0 : Int) < (unit : Int) := by exact_mod_cast unit_pos
  have h0 : (0 : Int) ≤ (n : Int) * unit := Int.mul_nonneg (Int.ofNat_nonneg n) (le_of_lt hupos)
  have hmod : (n : Int) * (unit : Int) % (unit : Int) = 0 := Int.mul_emod_left _ _
  have hdiv : (n : Int) * (unit : Int) / (unit : Int) = n :=
    Int.mul_ediv_cancel _ (ne_of_gt hupos)
  show (if 0 ≤ (n : Int) * unit ∧ (n : Int) * (unit : Int) % (unit : Int) = 0
    then some ((n : Int) * (unit : Int) / (unit : Int)).toNat else none) = some n
  rw [if_pos ⟨h0, hmod⟩, hdiv]
  rfl

theorem isFalsy_ofInt (z : Int) : (ofInt z).isFalsy = decide (z = 0) := by
  have hupos : (unit : Int) ≠ 0 := by exact_mod_cast (ne_of_gt unit_pos)
  show decide (z * (unit : Int) = 0) = decide (z = 0)
  congr 1
  apply propext
  constructor
  · intro h
    rcases Int.mul_eq_zero.mp h with h1 | h1
    · exact h1
    · exact absurd h1 hupos
  · intro h
    rw [h, Int.zero_mul]

theorem lt_ofInt (a b : Int) : lt (ofInt a) (ofInt b) = decide (a < b) := by
  have hupos : (0 : Int) < (unit : Int) := by exact_mod_cast unit_pos
  show decide (a * (unit : Int) < b * unit) = decide (a < b)
  congr 1
  apply propext
  exact mul_lt_mul_right hupos

end JsNum

/-! ## `Array.prototype.sort` with the price comparator -/

namespace Js

theorem perm_insertSorted (cmp : JsVal → JsVal → Except String JsNum) (x : JsVal) :
    ∀ (l r : List JsVal), insertSorted cmp x l = .ok r → r.Perm (x :: l) := by
  intro l
  induction l with
  | nil =>
    intro r h
    simp only [insertSorted, Except.ok.injEq] at h
    rw [← h]
  | cons y ys ih =>
    intro r h
    unfold insertSorted at h
    split at h
    · exact absurd h (by simp)
    · split at h
      · split at h
        · exact absurd h (by simp)
        · rename_i rest hrest
          simp only [Except.ok.injEq] at h
          rw [← h]
          exact (List.Perm.cons y (ih rest hrest)).trans (List.Perm.swap x y ys)
      · simp only [Except.ok.injEq] at h
        rw [← h]

theorem perm_sortWith (cmp : JsVal → JsVal → Except String JsNum) :
    ∀ (l r : List JsVal), sortWith cmp l = .ok r → r.Perm l := by
  intro l
  induction l with
  | nil =>
    intro r h
    simp only [sortWith, Except.ok.injEq] at h
    rw [← h]
  | cons x xs ih =>
    intro r h
    unfold sortWith at h
    split at h
    · exact absurd h (by simp)
    · rename_i sorted hsorted
      exact (perm_insertSorted cmp x sorted r h).trans (List.Perm.cons x (ih sorted hsorted))

end Js

/-- On two offers with numeric prices the comparator does not throw, and its
result is positive exactly when the second price is below the first. -/
theorem comparePrice_numeric (a b : JsVal) (x y : JsNum)
    (hna : Js.nullish a = false) (hnb : Js.nullish b = false)
    (ha : priceKey a = .ok x) (hb : priceKey b = .ok y) :
    Server.comparePrice a b = .ok (JsNum.sub x y) := by
  unfold priceKey at ha hb
  have hga : Js.getProp a "price" = .ok (Js.prop a "price") := by
    cases a <;> simp_all [Js.getProp, Js.nullish]
  have hgb : Js.getProp b "price" = .ok (Js.prop b "price") := by
    cases b <;> simp_all [Js.getProp, Js.nullish]
  simp only [Server.comparePrice, hga, hgb, ha, hb, bind, Except.bind, pure, Except.pure]
/-- Inserting an offer with a numeric price into a list sorted by price: the
comparator never throws and the result is sorted. -/
theorem sorted_insertSorted (x : JsVal) (l : List JsVal)
    (hx : Js.nullish x = false ∧ numericPrice x)
    (hl : ∀ y ∈ l, Js.nullish y = false ∧ numericPrice y)
    (hs : sortedByPrice l) :
    ∃ r, Js.insertSorted Server.comparePrice x l = .ok r ∧ sortedByPrice r := by
  induction l with
  | nil =>
    exact ⟨[x], rfl, by simp [sortedByPrice]⟩
  | cons y ys ih =>
    obtain ⟨hnx, kx, hkx, hxn⟩ := hx
    obtain ⟨hny, ky, hky, hyn⟩ := hl y (List.mem_cons_self _ _)
    have hys : ∀ z ∈ ys, Js.nullish z = false ∧ numericPrice z :=
      fun z hz => hl z (List.mem_cons_of_mem _ hz)
    have hsorted : sortedByPrice ys := (List.pairwise_cons.mp hs).2
    have hhead := (List.pairwise_cons.mp hs).1
    have hcmp := comparePrice_numeric x y kx ky hnx hny hkx hky
    unfold Js.insertSorted
    rw [hcmp]
    simp only [JsNum.zero_lt_sub]
    by_cases hlt : JsNum.lt ky kx = true
    · obtain ⟨rest, hrest, hrs⟩ := ih hys hsorted
      rw [if_pos hlt, hrest]
      refine ⟨y :: rest, rfl, List.pairwise_cons.mpr ⟨?_, hrs⟩⟩
      intro z hz
      have hmem : z ∈ x :: ys := (Js.perm_insertSorted _ x ys rest hrest).subset hz
      rcases List.mem_cons.mp hmem with rfl | hzs
      · exact ⟨ky, kx, hky, hkx, JsNum.le_of_lt_true _ _ hlt⟩
      · exact hhead z hzs
    · rw [if_neg hlt]
      have hle : JsNum.le kx ky = true :=
        JsNum.le_of_not_lt _ _ hxn hyn (by simpa using hlt)
      refine ⟨x :: y :: ys, rfl, List.pairwise_cons.mpr ⟨?_, hs⟩⟩
      intro z hz
      rcases List.mem_cons.mp hz with rfl | hzs
      · exact ⟨kx, ky, hkx, hky, hle⟩
      · obtain ⟨a, b, ha, hb, hab⟩ := hhead z hzs
        have hak : a = ky := by
          rw [hky] at ha
          exact (Except.ok.inj ha).symm
        subst hak
        exact ⟨kx, b, hkx, hb, JsNum.le_trans_true _ _ _ hle hab⟩

/-- Sorting offers that all have a numeric price: the sort does not throw and
returns a permutation in ascending order of price. -/
theorem sorted_sortWith (l : List JsVal)
    (hl : ∀ y ∈ l, Js.nullish y = false ∧ numericPrice y) :
    ∃ r, Js.sortWith Server.comparePrice l = .ok r ∧ r.Perm l ∧ sortedByPrice r := by
  induction l with
  | nil => exact ⟨[], rfl, List.Perm.refl _, by simp [sortedByPrice]⟩
  | cons x xs ih =>
    have hxs : ∀ y ∈ xs, Js.nullish y = false ∧ numericPrice y :=
      fun y hy => hl y (List.mem_cons_of_mem _ hy)
    obtain ⟨sorted, hsort, hperm, hsorted⟩ := ih hxs
    have hall : ∀ y ∈ sorted, Js.nullish y = false ∧ numericPrice y :=
      fun y hy => hxs y (hperm.subset hy)
    obtain ⟨r, hr, hrs⟩ :=
      sorted_insertSorted x sorted (hl x (List.mem_cons_self _ _)) hall hsorted
    refine ⟨r, ?_, ?_, hrs⟩
    · unfold Js.sortWith
      rw [hsort]
      exact hr
    · exact (Js.perm_insertSorted _ x sorted r hr).trans (List.Perm.cons x hperm)

/-! ## Property reads -/

namespace Js

theorem truthy_str (s : String) (h : s ≠ "") : truthy (.str s) = true := by
  simp [truthy, h]

theorem strictEq_str (a b : String) (h : a ≠ b) : strictEq (.str a) (.str b) = false := by
  simp [strictEq, h]

theorem or_obj (fields : List (String × JsVal)) (v : JsVal) :
    Js.or (.obj fields) v = .obj fields := rfl

theorem or_arr (xs : List JsVal) (v : JsVal) : Js.or (.arr xs) v = .arr xs := rfl

theorem or_undefined (v : JsVal) : Js.or .undefined v = v := rfl

theorem prop_obj (fields : List (String × JsVal)) (k : String) :
    prop (.obj fields) k = lookup fields k := rfl

theorem optProp_obj (fields : List (String × JsVal)) (k : String) :
    optProp (.obj fields) k = lookup fields k := rfl

theorem optProp_undefined (k : String) : optProp .undefined k = .undefined := rfl

theorem optProp_of_nullish (v : JsVal) (k : String) (h : nullish v = true) :
    optProp v k = .undefined := by
  unfold optProp
  rw [if_pos h]

theorem optProp_of_not_nullish (v : JsVal) (k : String) (h : nullish v = false) :
    optProp v k = prop v k := by
  unfold optProp
  rw [if_neg (by rw [h]; exact Bool.false_ne_true)]

theorem getProp_obj (fields : List (String × JsVal)) (k : String) :
    getProp (.obj fields) k = .ok (lookup fields k) := rfl

theorem index_arr (xs : List JsVal) (i : Nat) :
    index (.arr xs) (JsNum.ofInt i) = xs.getD i .undefined := by
  unfold index
  rw [JsNum.toIndex_ofInt]

theorem getD_of_getElem? (xs : List JsVal) (i : Nat) (v : JsVal) (h : xs[i]? = some v) :
    xs.getD i .undefined = v := by
  simp [List.getD_eq_getElem?_getD, h]

theorem getD_of_length_le (xs : List JsVal) (i : Nat) (h : xs.length ≤ i) :
    xs.getD i .undefined = .undefined := by
  simp [List.getD_eq_getElem?_getD, List.getElem?_eq_none h]

theorem prop_length (xs : List JsVal) :
    prop (.arr xs) "length" = .num (JsNum.ofInt xs.length) := by
  simp [prop]

/-- A value whose conversion to a number throws is an array, an object or a
function, hence truthy. -/
theorem truthy_of_toNumber_error (v : JsVal) (e : String) (h : toNumber v = .error e) :
    truthy v = true := by
  cases v <;> first | rfl | (simp [toNumber] at h)

end Js

/-! ## The legs of a normalised offer -/

namespace Server

/-- The value of the callback on an object offer, once the four conversions of
the segment counts have succeeded. -/
theorem normalizeOffer_ok (fields : List (String × JsVal)) (lo li so si : JsVal)
    (h1 : lastSegment (itineraryOf fields 0) = .ok lo)
    (h2 : lastSegment (itineraryOf fields 1) = .ok li)
    (h3 : stops (itineraryOf fields 0) = .ok so)
    (h4 : stops (itineraryOf fields 1) = .ok si) :
    normalizeOffer (.obj fields) = .ok (.obj [
      ("id", Js.lookup fields "id"),
      ("price", Js.optProp (Js.lookup fields "price") "total"),
      ("currency", Js.optProp (Js.lookup fields "price") "currency"),
      ("validatingAirlineCodes", Js.or (Js.lookup fields "validatingAirlineCodes") (.arr [])),
      ("outbound", legOf (firstSegment (itineraryOf fields 0)) lo (itineraryOf fields 0) so),
      ("inbound", legOf (firstSegment (itineraryOf fields 1)) li (itineraryOf fields 1) si)]) := by
  unfold itineraryOf at h1 h2 h3 h4
  simp only [Nat.cast_zero, Nat.cast_one] at h1 h2 h3 h4
  simp only [normalizeOffer, Js.getProp_obj, bind, Except.bind, pure, Except.pure, h1, h2, h3, h4]
  rfl

/-- The callback throws when the segment count of the outbound itinerary does
not convert. -/
theorem normalizeOffer_error_outbound (fields : List (String × JsVal)) (e : String)
    (h : lastSegment (itineraryOf fields 0) = .error e) :
    normalizeOffer (.obj fields) = .error e := by
  unfold itineraryOf at h
  simp only [Nat.cast_zero] at h
  simp only [normalizeOffer, Js.getProp_obj, bind, Except.bind, pure, Except.pure, h]

/-- The callback throws when the segment count of the inbound itinerary does
not convert. -/
theorem normalizeOffer_error_inbound (fields : List (String × JsVal)) (e : String) (lo : JsVal)
    (h1 : lastSegment (itineraryOf fields 0) = .ok lo)
    (h : lastSegment (itineraryOf fields 1) = .error e) :
    normalizeOffer (.obj fields) = .error e := by
  unfold itineraryOf at h h1
  simp only [Nat.cast_zero, Nat.cast_one] at h h1
  simp only [normalizeOffer, Js.getProp_obj, bind, Except.bind, pure, Except.pure, h, h1]

end Server
namespace JsNum

theorem max_ofInt_zero (a : Int) (h : 0 ≤ a) : max (ofInt a) (ofInt 0) = ofInt a := by
  have hlt : lt (ofInt a) (ofInt 0) = false := by
    rw [lt_ofInt]
    exact decide_eq_false (not_lt.mpr h)
  unfold max
  rw [hlt]
  rfl

end JsNum

namespace Server

/-- The stop count `Math.max((undefined || 1) - 1, 0)` is `0`. -/
theorem stops_of_absent (itinerary : JsVal)
    (h : Js.optProp (Js.optProp itinerary "segments") "length" = .undefined) :
    stops itinerary = .ok (.num (JsNum.ofInt 0)) := by
  unfold stops
  rw [h, Js.or_undefined]
  show Except.ok (JsVal.num (JsNum.max (JsNum.sub (JsNum.ofInt 1) (JsNum.ofInt 1))
    (JsNum.ofInt 0))) = _
  rw [JsNum.sub_ofInt 1 1 (by norm_num)]
  rw [show (1 : Int) - 1 = 0 from rfl, JsNum.max_ofInt_zero 0 (le_refl _)]

/-- An itinerary without segments has no first segment, no last segment and
no stop. -/
theorem leg_of_absent_segments (itinerary : JsVal)
    (h : Js.nullish (Js.optProp itinerary "segments") = true) :
    firstSegment itinerary = .undefined ∧ lastSegment itinerary = .ok .undefined
      ∧ stops itinerary = .ok (.num (JsNum.ofInt 0)) := by
  refine ⟨?_, ?_, ?_⟩
  · unfold firstSegment
    rw [if_pos h]
  · unfold lastSegment
    rw [if_pos h]
  · exact stops_of_absent itinerary (Js.optProp_of_nullish _ _ h)

/-- An absent itinerary has no segments. -/
theorem nullish_segments_of_nullish (itinerary : JsVal) (h : Js.nullish itinerary = true) :
    Js.nullish (Js.optProp itinerary "segments") = true := by
  rw [Js.optProp_of_nullish _ _ h]
  rfl

/-- The first segment, the last segment and the stop count of an itinerary
with a non-empty list of segments. -/
theorem leg_of_segment_list (itf : List (String × JsVal)) (segs : List JsVal)
    (hsegs : Js.lookup itf "segments" = .arr segs) (hne : segs ≠ [])
    (hlen : segs.length < 2 ^ 32) :
    firstSegment (.obj itf) = segs.headD .undefined
      ∧ lastSegment (.obj itf) = .ok (segs.getLastD .undefined)
      ∧ stops (.obj itf) = .ok (.num (JsNum.ofInt ((segs.length : Int) - 1))) := by
  have hpos : 0 < segs.length := List.length_pos.mpr hne
  have hbound : ((segs.length : Int) - 1).natAbs < 2 ^ 53 := by omega
  have hcast : ((segs.length : Int) - 1) = ((segs.length - 1 : Nat) : Int) := by omega
  have hsub : JsNum.sub (JsNum.ofInt segs.length) (JsNum.ofInt 1)
      = JsNum.ofInt ((segs.length - 1 : Nat) : Int) := by
    rw [JsNum.sub_ofInt _ _ hbound, hcast]
  refine ⟨?_, ?_, ?_⟩
  · unfold firstSegment
    rw [Js.optProp_obj, Js.prop_obj, hsegs, if_neg (by simp [Js.nullish])]
    have h0 := Js.index_arr segs 0
    simp only [Nat.cast_zero] at h0
    rw [h0]
    cases segs <;> rfl
  · unfold lastSegment
    rw [Js.optProp_obj, Js.prop_obj, hsegs, if_neg (by simp [Js.nullish]), Js.prop_length]
    show Except.ok (Js.index (.arr segs) (JsNum.sub (JsNum.ofInt segs.length) (JsNum.ofInt 1)))
      = _
    rw [hsub, Js.index_arr, List.getD_eq_getElem?_getD, List.getLastD_eq_getLast?,
      List.getLast?_eq_getElem?]
  · unfold stops
    rw [Js.optProp_obj, hsegs, Js.optProp_of_not_nullish (.arr segs) "length" rfl,
      Js.prop_length]
    have htruthy : Js.or (.num (JsNum.ofInt segs.length)) (.num (JsNum.ofInt 1))
        = .num (JsNum.ofInt segs.length) := by
      unfold Js.or
      have ht : Js.truthy (.num (JsNum.ofInt segs.length)) = true := by
        show (!(JsNum.ofInt segs.length).isFalsy) = true
        rw [JsNum.isFalsy_ofInt]
        have : ¬ ((segs.length : Int) = 0) := by omega
        simp [this]
      rw [if_pos ht]
    rw [htruthy]
    show Except.ok (JsVal.num (JsNum.max (JsNum.sub (JsNum.ofInt segs.length) (JsNum.ofInt 1))
      (JsNum.ofInt 0))) = _
    rw [JsNum.sub_ofInt _ _ hbound, JsNum.max_ofInt_zero _ (by omega)]

/-- When the segment count of an itinerary converts to a number, neither the
last-segment read nor the stop count throws. -/
theorem leg_of_converts (itinerary : JsVal) (h : segmentCountConverts itinerary) :
    ∃ last n, lastSegment itinerary = .ok last ∧ stops itinerary = .ok n := by
  obtain ⟨n, hn⟩ := h
  by_cases hnull : Js.nullish (Js.optProp itinerary "segments") = true
  · obtain ⟨_, h2, h3⟩ := leg_of_absent_segments itinerary hnull
    exact ⟨_, _, h2, h3⟩
  · have hf : Js.nullish (Js.optProp itinerary "segments") = false := by
      simpa using hnull
    have hit : Js.nullish itinerary = false := by
      cases hi : Js.nullish itinerary
      · rfl
      · rw [nullish_segments_of_nullish itinerary hi] at hf
        exact absurd hf (by decide)
    rw [Js.optProp_of_not_nullish _ _ hf] at hn
    have hseg : Js.optProp itinerary "segments" = Js.prop itinerary "segments" :=
      Js.optProp_of_not_nullish _ _ hit
    rw [hseg] at hn
    refine ⟨Js.index (Js.prop itinerary "segments") (JsNum.sub n (JsNum.ofInt 1)),
      .num (JsNum.max (JsNum.sub
        (if Js.truthy (Js.prop (Js.prop itinerary "segments") "length") then n
          else JsNum.ofInt 1) (JsNum.ofInt 1)) (JsNum.ofInt 0)), ?_, ?_⟩
    · unfold lastSegment
      rw [if_neg hnull, hn]
    · unfold stops
      rw [Js.optProp_of_not_nullish _ _ hf, hseg]
      unfold Js.or
      by_cases ht : Js.truthy (Js.prop (Js.prop itinerary "segments") "length") = true
      · rw [if_pos ht, if_pos ht, hn]
      · rw [if_neg ht, if_neg ht]
        rfl

/-- When the segment count of an itinerary does not convert to a number, the
last-segment read throws. -/
theorem lastSegment_error (itinerary : JsVal) (e : String)
    (h : Js.toNumber (Js.optProp (Js.optProp itinerary "segments") "length") = .error e) :
    lastSegment itinerary = .error e := by
  by_cases hnull : Js.nullish (Js.optProp itinerary "segments") = true
  · rw [Js.optProp_of_nullish _ _ hnull] at h
    exact absurd h (by simp [Js.toNumber])
  · have hf : Js.nullish (Js.optProp itinerary "segments") = false := by
      simpa using hnull
    have hit : Js.nullish itinerary = false := by
      cases hi : Js.nullish itinerary
      · rfl
      · rw [nullish_segments_of_nullish itinerary hi] at hf
        exact absurd hf (by decide)
    rw [Js.optProp_of_not_nullish _ _ hf, Js.optProp_of_not_nullish _ _ hit] at h
    unfold lastSegment
    rw [if_neg hnull, h]

end Server
/-! ## The handlers on a decoded request body -/

theorem Netlify.parseBody_text (jsonParse : String → Except String JsVal) (text : String)
    (body : JsVal) (htext : text ≠ "") (hparse : jsonParse text = .ok body) :
    Netlify.parseBody jsonParse ⟨"POST", some text⟩ = .ok body := by
  simp [Netlify.parseBody, htext, hparse]

theorem Netlify.destructureBody_of_not_nullish (body : JsVal) (h : Js.nullish body = false) :
    Netlify.destructureBody body = .ok (Js.prop body "origin", Js.prop body "destination",
      Js.prop body "departureDate", Js.prop body "returnDate") := by
  cases body <;> first | rfl | exact absurd h (by decide)

theorem Js.strictEq_self (v : JsVal) (hp : isPrimitive v = true) (ht : Js.truthy v = true) :
    Js.strictEq v v = true := by
  cases v <;> simp_all [Js.strictEq, isPrimitive, Js.truthy]
  rename_i n
  cases n <;> simp_all [JsNum.eqv, JsNum.isFalsy]

theorem Js.truthy_of_missingOrEmpty (v : JsVal) (h : missingOrEmpty v) :
    Js.truthy v = false := by
  rcases h with h | h | h <;> subst h <;> simp [Js.truthy]

/-- The four query fields read from `req.body || {}` are those of `req.body`. -/
theorem Server.body_fields (v : JsVal) :
    Js.prop (Js.or v (.obj [])) "origin" = Js.prop v "origin"
      ∧ Js.prop (Js.or v (.obj [])) "destination" = Js.prop v "destination"
      ∧ Js.prop (Js.or v (.obj [])) "departureDate" = Js.prop v "departureDate"
      ∧ Js.prop (Js.or v (.obj [])) "returnDate" = Js.prop v "returnDate" := by
  unfold Js.or
  by_cases ht : Js.truthy v = true
  · rw [if_pos ht]
    exact ⟨rfl, rfl, rfl, rfl⟩
  · rw [if_neg ht]
    cases v with
    | str s =>
      have hs : s = "" := by
        simpa [Js.truthy] using ht
      subst hs
      exact ⟨rfl, rfl, rfl, rfl⟩
    | arr xs => exact absurd rfl ht
    | obj fields => exact absurd rfl ht
    | builtin name => exact absurd rfl ht
    | _ => exact ⟨rfl, rfl, rfl, rfl⟩

/-- Both validation branches answer 400 without touching the cache or the
network: the Express route. -/
theorem Server.searchFlights_rejected (env : Env) (w : World) (c : TokenCache) (body : JsVal)
    (h : (!Js.truthy (Js.prop body "origin") || !Js.truthy (Js.prop body "destination")
        || !Js.truthy (Js.prop body "departureDate")
        || !Js.truthy (Js.prop body "returnDate")) = true
      ∨ Js.strictEq (Js.prop body "origin") (Js.prop body "destination") = true) :
    (Server.searchFlights env w c body =
        ⟨⟨400, .obj [("error",
          .str "origin, destination, departureDate, and returnDate are required.")]⟩, c, []⟩
      ∨ Server.searchFlights env w c body =
        ⟨⟨400, .obj [("error", .str "Origin and destination must be different.")]⟩, c, []⟩) := by
  obtain ⟨h1, h2, h3, h4⟩ := Server.body_fields body
  simp only [Server.searchFlights, h1, h2, h3, h4]
  split
  · left; rfl
  · rename_i hn
    rcases h with h | h
    · exact absurd h hn
    · right
      rw [if_pos h]
      rfl

/-- Both validation branches answer 400 without touching the cache or the
network: the Netlify handler. -/
theorem Netlify.handler_rejected (jsonParse : String → Except String JsVal) (env : Env)
    (w : World) (c : TokenCache) (text : String) (body : JsVal)
    (htext : text ≠ "") (hparse : jsonParse text = .ok body) (hbody : Js.nullish body = false)
    (h : (!Js.truthy (Js.prop body "origin") || !Js.truthy (Js.prop body "destination")
        || !Js.truthy (Js.prop body "departureDate")
        || !Js.truthy (Js.prop body "returnDate")) = true
      ∨ Js.strictEq (Js.prop body "origin") (Js.prop body "destination") = true) :
    (Netlify.handler jsonParse env w c ⟨"POST", some text⟩ =
        ⟨Netlify.json 400 (.obj [("error",
          .str "origin, destination, departureDate, and returnDate are required.")]), c, []⟩
      ∨ Netlify.handler jsonParse env w c ⟨"POST", some text⟩ =
        ⟨Netlify.json 400 (.obj [("error", .str "Origin and destination must be different.")]),
          c, []⟩) := by
  simp only [Netlify.handler, Netlify.parseBody_text jsonParse text _ htext hparse,
    Netlify.destructureBody_of_not_nullish body hbody]
  simp only [ne_eq, not_true_eq_false, if_false]
  split
  · left; rfl
  · rename_i hn
    rcases h with h | h
    · exact absurd h hn
    · right
      rw [if_pos h]
      rfl

/-- A `POST` without a body, or with an empty one, has every field missing:
the Netlify handler reads the fields of `\x7b\x7d` and answers 400 without any
upstream request. -/
theorem Netlify.handler_without_body (jsonParse : String → Except String JsVal) (env : Env)
    (w : World) (c : TokenCache) (b : Option String) (h : b = none ∨ b = some "") :
    Netlify.handler jsonParse env w c ⟨"POST", b⟩ =
      ⟨Netlify.json 400 (.obj [("error",
        .str "origin, destination, departureDate, and returnDate are required.")]), c, []⟩ := by
  rcases h with rfl | rfl <;> rfl

/-- A request without a decoded body (`req.body` is `undefined`) has every
field missing: the Express route reads the fields of `\x7b\x7d` and answers 400
without any upstream request; likewise when `req.body` is `null`. -/
theorem Server.searchFlights_without_body (env : Env) (w : World) (c : TokenCache)
    (body : JsVal) (h : Js.nullish body = true) :
    Server.searchFlights env w c body =
      ⟨⟨400, .obj [("error",
        .str "origin, destination, departureDate, and returnDate are required.")]⟩, c, []⟩ := by
  cases body <;> first | rfl | exact absurd h (by simp [Js.nullish])

/-- Claim C1, as amended. For every search request body other than `null` in
which origin, destination, departureDate or returnDate is missing or empty, or
in which origin and destination are the same primitive value (the same
string), either copy answers with status 400 and one of the two validation
messages, issues no upstream request at all (neither the token request nor the
flight-search request) and leaves the token cache untouched, whatever the token
cache, the configured secrets and the upstream. -/
theorem validation_rejects (k : Copy) (jsonParse : String → Except String JsVal)
    (env : Env) (w : World) (c : TokenCache) (text : String) (body : JsVal)
    (htext : text ≠ "") (hparse : jsonParse text = .ok body)
    (hbody : Js.nullish body = false)
    (hbad : missingOrEmpty (Js.prop body "origin")
      ∨ missingOrEmpty (Js.prop body "destination")
      ∨ missingOrEmpty (Js.prop body "departureDate")
      ∨ missingOrEmpty (Js.prop body "returnDate")
      ∨ (Js.prop body "origin" = Js.prop body "destination"
          ∧ isPrimitive (Js.prop body "origin") = true)) :
    (k.search jsonParse env w c text body).response.status = 400
      ∧ ((k.search jsonParse env w c text body).response.payload = .obj [("error",
            .str "origin, destination, departureDate, and returnDate are required.")]
        ∨ (k.search jsonParse env w c text body).response.payload = .obj [("error",
            .str "Origin and destination must be different.")])
      ∧ (k.search jsonParse env w c text body).requests = []
      ∧ (k.search jsonParse env w c text body).cache = c := by
  have h : (!Js.truthy (Js.prop body "origin") || !Js.truthy (Js.prop body "destination")
        || !Js.truthy (Js.prop body "departureDate")
        || !Js.truthy (Js.prop body "returnDate")) = true
      ∨ Js.strictEq (Js.prop body "origin") (Js.prop body "destination") = true := by
    rcases hbad with h | h | h | h | ⟨heq, hp⟩
    · left; simp [Js.truthy_of_missingOrEmpty _ h]
    · left; simp [Js.truthy_of_missingOrEmpty _ h]
    · left; simp [Js.truthy_of_missingOrEmpty _ h]
    · left; simp [Js.truthy_of_missingOrEmpty _ h]
    · by_cases ht : Js.truthy (Js.prop body "origin") = true
      · right
        rw [← heq]
        exact Js.strictEq_self _ hp ht
      · left; simp [ht]
  cases k
  · rcases Server.searchFlights_rejected env w c body h with hr | hr
    · simp [Copy.search, hr, Netlify.json]
    · simp [Copy.search, hr, Netlify.json]
  · rcases Netlify.handler_rejected jsonParse env w c text body htext hparse hbody h with hr | hr
    · simp [Copy.search, hr, Netlify.json]
    · simp [Copy.search, hr, Netlify.json]

/-- The validation theorem at a query with `JFK` twice (Express) and at a query
without a return date (Netlify). -/
theorem validation_rejects_witness :
    ((Copy.search .server Sample.jsonParse Sample.env Sample.worldOk TokenCache.initial
        Sample.sameAirportText (.obj Sample.sameAirportFields)).response.status = 400
      ∧ ((Copy.search .server Sample.jsonParse Sample.env Sample.worldOk TokenCache.initial
          Sample.sameAirportText (.obj Sample.sameAirportFields)).response.payload
            = .obj [("error",
              .str "origin, destination, departureDate, and returnDate are required.")]
        ∨ (Copy.search .server Sample.jsonParse Sample.env Sample.worldOk TokenCache.initial
          Sample.sameAirportText (.obj Sample.sameAirportFields)).response.payload
            = .obj [("error", .str "Origin and destination must be different.")])
      ∧ (Copy.search .server Sample.jsonParse Sample.env Sample.worldOk TokenCache.initial
        Sample.sameAirportText (.obj Sample.sameAirportFields)).requests = []
      ∧ (Copy.search .server Sample.jsonParse Sample.env Sample.worldOk TokenCache.initial
        Sample.sameAirportText (.obj Sample.sameAirportFields)).cache = TokenCache.initial)
    ∧ ((Copy.search .netlify Sample.jsonParse Sample.env Sample.worldOk TokenCache.initial
        Sample.noReturnText (.obj Sample.noReturnFields)).response.status = 400
      ∧ ((Copy.search .netlify Sample.jsonParse Sample.env Sample.worldOk TokenCache.initial
          Sample.noReturnText (.obj Sample.noReturnFields)).response.payload
            = .obj [("error",
              .str "origin, destination, departureDate, and returnDate are required.")]
        ∨ (Copy.search .netlify Sample.jsonParse Sample.env Sample.worldOk TokenCache.initial
          Sample.noReturnText (.obj Sample.noReturnFields)).response.payload
            = .obj [("error", .str "Origin and destination must be different.")])
      ∧ (Copy.search .netlify Sample.jsonParse Sample.env Sample.worldOk TokenCache.initial
        Sample.noReturnText (.obj Sample.noReturnFields)).requests = []
      ∧ (Copy.search .netlify Sample.jsonParse Sample.env Sample.worldOk TokenCache.initial
        Sample.noReturnText (.obj Sample.noReturnFields)).cache = TokenCache.initial) :=
  ⟨validation_rejects .server Sample.jsonParse Sample.env Sample.worldOk TokenCache.initial
      Sample.sameAirportText (.obj Sample.sameAirportFields) (by decide) (by rfl) rfl
      (Or.inr (Or.inr (Or.inr (Or.inr ⟨rfl, rfl⟩)))),
   validation_rejects .netlify Sample.jsonParse Sample.env Sample.worldOk TokenCache.initial
      Sample.noReturnText (.obj Sample.noReturnFields) (by decide) (by rfl) rfl
      (Or.inr (Or.inr (Or.inr (Or.inl (Or.inl rfl)))))⟩

/-- Two inputs at which claim C1 as worded fails. A body that is the JSON text
`null` has every field missing: the Express route answers 400, the Netlify
handler throws on the destructuring and answers 500. A body whose origin and
destination are both `["JFK"]` has origin equal to destination, yet `===`
compares two arrays by reference: both copies pass the validation, issue the
token request and a flight search from `JFK` to `JFK`, and answer 200. -/
theorem validation_rejects_counterexample :
    (Copy.search .server Sample.jsonParse Sample.env Sample.worldEmpty TokenCache.initial
        "null" .null).response.status = 400
    ∧ (Copy.search .netlify Sample.jsonParse Sample.env Sample.worldEmpty TokenCache.initial
        "null" .null).response.status = 500
    ∧ (Copy.search .netlify Sample.jsonParse Sample.env Sample.worldEmpty TokenCache.initial
        "null" .null).response.payload = .obj [("error",
          .str "Cannot destructure property \x27origin\x27 of \x27body\x27 as it is null.")]
    ∧ Js.prop (.obj Sample.arrayAirportFields) "origin"
        = Js.prop (.obj Sample.arrayAirportFields) "destination"
    ∧ (∀ k : Copy,
        (Copy.search k Sample.jsonParse Sample.env Sample.worldEmpty TokenCache.initial
          Sample.arrayAirportText (.obj Sample.arrayAirportFields)).response.status = 200
        ∧ (Copy.search k Sample.jsonParse Sample.env Sample.worldEmpty TokenCache.initial
          Sample.arrayAirportText (.obj Sample.arrayAirportFields)).requests =
          [Server.tokenRequest Sample.env,
           .get "https://test.api.amadeus.com/v2/shopping/flight-offers"
            [("originLocationCode", "JFK"), ("destinationLocationCode", "JFK"),
             ("departureDate", "2025-06-01"), ("returnDate", "2025-06-10"),
             ("adults", "1"), ("nonStop", "false"), ("currencyCode", "USD"), ("max", "12")]
            "Bearer token-1"]) := by
  set_option exponentiation.threshold 5000 in
  refine ⟨rfl, rfl, rfl, rfl, fun k => ?_⟩
  set_option exponentiation.threshold 5000 in
  cases k <;> exact ⟨rfl, rfl⟩

/-! ## Offer normalisation -/

theorem Copy.normalizeOffer_eq (k : Copy) : k.normalizeOffer = Server.normalizeOffer := by
  cases k <;> rfl

theorem itineraryOf_arr (fields : List (String × JsVal)) (its : List JsVal) (i : Nat)
    (h : Js.or (Js.lookup fields "itineraries") (.arr []) = .arr its) :
    itineraryOf fields i = its.getD i .undefined := by
  unfold itineraryOf
  rw [h, Js.index_arr]

/-- The leg `i` of a successfully normalised offer. -/
theorem Server.normalizeOffer_leg (fields : List (String × JsVal)) (lo li so si : JsVal)
    (i : Nat) (hi : i < 2)
    (h1 : Server.lastSegment (itineraryOf fields 0) = .ok lo)
    (h2 : Server.lastSegment (itineraryOf fields 1) = .ok li)
    (h3 : Server.stops (itineraryOf fields 0) = .ok so)
    (h4 : Server.stops (itineraryOf fields 1) = .ok si) :
    (Server.normalizeOffer (.obj fields)).map (fun n => Js.prop n (legName i))
      = .ok (legOf (Server.firstSegment (itineraryOf fields i)) (if i = 0 then lo else li)
          (itineraryOf fields i) (if i = 0 then so else si)) := by
  rw [Server.normalizeOffer_ok fields lo li so si h1 h2 h3 h4]
  have hcase : i = 0 ∨ i = 1 := by omega
  rcases hcase with rfl | rfl <;> rfl

/-- The outcome of reading an itinerary's last segment and stop count is
decided by whether its segment count converts to a number. -/
theorem Server.converts_or_throws (itinerary : JsVal) :
    segmentCountConverts itinerary
      ∨ ∃ e, Js.toNumber (Js.optProp (Js.optProp itinerary "segments") "length") = .error e := by
  unfold segmentCountConverts
  cases h : Js.toNumber (Js.optProp (Js.optProp itinerary "segments") "length") with
  | ok n => exact Or.inl ⟨n, rfl⟩
  | error e => exact Or.inr ⟨e, rfl⟩

/-- The callback throws as soon as the segment count of one of the two
itineraries does not convert to a number. -/
theorem Server.normalizeOffer_throws (fields : List (String × JsVal)) (i : Nat) (hi : i < 2)
    (e : String) (hconv : segmentCountConverts (itineraryOf fields (1 - i)))
    (h : Js.toNumber (Js.optProp (Js.optProp (itineraryOf fields i) "segments") "length")
      = .error e) :
    Server.normalizeOffer (.obj fields) = .error e := by
  have hcase : i = 0 ∨ i = 1 := by omega
  rcases hcase with rfl | rfl
  · exact Server.normalizeOffer_error_outbound fields e (Server.lastSegment_error _ e h)
  · obtain ⟨lo, _, hlo, _⟩ := Server.leg_of_converts _ hconv
    exact Server.normalizeOffer_error_inbound fields e lo hlo (Server.lastSegment_error _ e h)

/-- Claim C3, as amended. For every raw offer and each of its two legs
(`i = 0` outbound, `i = 1` inbound) whose itinerary has a list of `n >= 1`
segments (`n < 2^32`, as for every array): when the segment count of the other
itinerary converts to a number, the normalised leg has departureAirport and
departureTime equal to the `iataCode` and `at` of the first segment's
departure, arrivalAirport and arrivalTime equal to the `iataCode` and `at` of
the last segment's arrival, duration equal to the itinerary's duration, and
`stops = n - 1`; when it does not convert, the normalisation throws that
conversion's error and there is no normalised offer. -/
theorem leg_of_segments (k : Copy) (fields : List (String × JsVal)) (its : List JsVal)
    (i : Nat) (itf : List (String × JsVal)) (segs : List JsVal) (hi : i < 2)
    (hits : Js.lookup fields "itineraries" = .arr its)
    (hit : its[i]? = some (.obj itf))
    (hsegs : Js.lookup itf "segments" = .arr segs)
    (hne : segs ≠ []) (hlen : segs.length < 2 ^ 32) :
    (segmentCountConverts (its.getD (1 - i) .undefined) →
      (k.normalizeOffer (.obj fields)).map (fun n => Js.prop n (legName i)) =
        .ok (legObject
          (Js.optProp (Js.optProp (segs.headD .undefined) "departure") "iataCode")
          (Js.optProp (Js.optProp (segs.headD .undefined) "departure") "at")
          (Js.optProp (Js.optProp (segs.getLastD .undefined) "arrival") "iataCode")
          (Js.optProp (Js.optProp (segs.getLastD .undefined) "arrival") "at")
          (Js.lookup itf "duration")
          ((segs.length : Int) - 1)))
    ∧ (∀ e, Js.toNumber (Js.optProp (Js.optProp (its.getD (1 - i) .undefined) "segments")
          "length") = .error e →
        k.normalizeOffer (.obj fields) = .error e) := by
  have hcase : i = 0 ∨ i = 1 := by omega
  have hval : Js.or (Js.lookup fields "itineraries") (.arr []) = .arr its := by
    rw [hits, Js.or_arr]
  have hmine : itineraryOf fields i = .obj itf := by
    rw [itineraryOf_arr fields its i hval, Js.getD_of_getElem? _ _ _ hit]
  have hother : itineraryOf fields (1 - i) = its.getD (1 - i) .undefined :=
    itineraryOf_arr fields its (1 - i) hval
  obtain ⟨hfirst, hlast, hstops⟩ := Server.leg_of_segment_list itf segs hsegs hne hlen
  have hmineConv : segmentCountConverts (itineraryOf fields i) := by
    rw [hmine]
    refine ⟨JsNum.ofInt segs.length, ?_⟩
    rw [Js.optProp_obj, hsegs, Js.optProp_of_not_nullish (.arr segs) "length" rfl,
      Js.prop_length]
    rfl
  rw [Copy.normalizeOffer_eq]
  constructor
  · intro hconv
    rw [← hother] at hconv
    obtain ⟨lo', so', hlo', hso'⟩ := Server.leg_of_converts _ hconv
    rcases hcase with rfl | rfl
    · rw [Server.normalizeOffer_leg fields _ lo' _ so' 0 (by omega)
        (by rw [hmine]; exact hlast) hlo' (by rw [hmine]; exact hstops) hso']
      rw [hmine, hfirst]
      rfl
    · rw [Server.normalizeOffer_leg fields lo' _ so' _ 1 (by omega)
        hlo' (by rw [hmine]; exact hlast) hso' (by rw [hmine]; exact hstops)]
      rw [hmine, hfirst]
      rfl
  · intro e he
    rw [← hother] at he
    have h2 : 1 - i < 2 := by omega
    have h3 : 1 - (1 - i) = i := by omega
    exact Server.normalizeOffer_throws fields (1 - i) h2 e (by rw [h3]; exact hmineConv) he

/-- The leg built from an itinerary that is `undefined` or `null`. -/
theorem Server.normalizeOffer_absent (fields : List (String × JsVal)) (i : Nat) (hi : i < 2)
    (h : Js.nullish (itineraryOf fields i) = true)
    (hconv : segmentCountConverts (itineraryOf fields (1 - i))) :
    (Server.normalizeOffer (.obj fields)).map (fun n => Js.prop n (legName i))
      = .ok absentLeg := by
  have hcase : i = 0 ∨ i = 1 := by omega
  obtain ⟨hfirst, hlast, hstops⟩ := Server.leg_of_absent_segments _
    (Server.nullish_segments_of_nullish _ h)
  obtain ⟨lo', so', hlo', hso'⟩ := Server.leg_of_converts _ hconv
  have hdur : Js.optProp (itineraryOf fields i) "duration" = .undefined :=
    Js.optProp_of_nullish _ _ h
  rcases hcase with rfl | rfl
  · rw [Server.normalizeOffer_leg fields _ lo' _ so' 0 (by omega) hlast hlo' hstops hso']
    unfold legOf
    rw [hfirst, hdur]
    rfl
  · rw [Server.normalizeOffer_leg fields lo' _ so' _ 1 (by omega) hlo' hlast hso' hstops]
    unfold legOf
    rw [hfirst, hdur]
    rfl

/-- The fields `id`, `price` and `currency` of a normalised offer are read off
the raw offer's `id` and `price`. -/
theorem Server.normalizeOffer_scalars (fields : List (String × JsVal))
    (h0 : segmentCountConverts (itineraryOf fields 0))
    (h1 : segmentCountConverts (itineraryOf fields 1)) :
    (Server.normalizeOffer (.obj fields)).map
        (fun n => (Js.prop n "id", Js.prop n "price", Js.prop n "currency"))
      = .ok (Js.lookup fields "id", Js.optProp (Js.lookup fields "price") "total",
          Js.optProp (Js.lookup fields "price") "currency") := by
  obtain ⟨lo, so, hlo, hso⟩ := Server.leg_of_converts _ h0
  obtain ⟨li, si, hli, hsi⟩ := Server.leg_of_converts _ h1
  rw [Server.normalizeOffer_ok fields lo li so si hlo hli hso hsi]
  rfl

/-- The outbound leg of a normalised offer is read off itinerary 0. -/
theorem Server.normalizeOffer_outbound (fields : List (String × JsVal)) (lo so : JsVal)
    (hlo : Server.lastSegment (itineraryOf fields 0) = .ok lo)
    (hso : Server.stops (itineraryOf fields 0) = .ok so)
    (h1 : segmentCountConverts (itineraryOf fields 1)) :
    (Server.normalizeOffer (.obj fields)).map (fun n => Js.prop n "outbound")
      = .ok (legOf (Server.firstSegment (itineraryOf fields 0)) lo (itineraryOf fields 0) so) := by
  obtain ⟨li, si, hli, hsi⟩ := Server.leg_of_converts _ h1
  rw [Server.normalizeOffer_ok fields lo li so si hlo hli hso hsi]
  rfl

theorem segmentCountConverts_undefined : segmentCountConverts .undefined :=
  ⟨JsNum.nan, rfl⟩

/-- The segment count converts whenever the itinerary or its segments are
absent. -/
theorem segmentCountConverts_of_absent (itinerary : JsVal)
    (h : Js.nullish (Js.optProp itinerary "segments") = true) :
    segmentCountConverts itinerary := by
  refine ⟨JsNum.nan, ?_⟩
  rw [Js.optProp_of_nullish _ _ h]
  rfl

/-- The segment count converts whenever the segments are a list. -/
theorem segmentCountConverts_of_list (itf : List (String × JsVal)) (segs : List JsVal)
    (h : Js.lookup itf "segments" = .arr segs) : segmentCountConverts (.obj itf) := by
  refine ⟨JsNum.ofInt segs.length, ?_⟩
  rw [Js.optProp_obj, h, Js.optProp_of_not_nullish (.arr segs) "length" rfl, Js.prop_length]
  rfl

/-- Claim C4, as amended. For every raw offer that has only one itinerary, or
none, or no itineraries list: when the segment count of itinerary 0 converts
to a number, the normalised inbound leg has all five fields absent and
`stops = 0`, and `id`, `price`, `currency` and the outbound leg are those of
every offer with the same `id`, `price` and itinerary 0 that does have an
inbound itinerary, provided that itinerary's segment count converts too;
likewise the outbound leg has all five fields absent and `stops = 0` when
itinerary 0 is absent and the segment count of itinerary 1 converts. When the
segment count of itinerary 0 does not convert, the normalisation throws and
there is no normalised offer. -/
theorem missing_inbound_leg (k : Copy) (fields : List (String × JsVal)) (its : List JsVal)
    (hits : Js.lookup fields "itineraries" = .arr its
      ∨ (Js.lookup fields "itineraries" = .undefined ∧ its = []))
    (hlen : its.length ≤ 1) :
    (segmentCountConverts (its.getD 0 .undefined) →
      (k.normalizeOffer (.obj fields)).map (fun n => Js.prop n "inbound") = .ok absentLeg
      ∧ (∀ (fields' : List (String × JsVal)) (its' : List JsVal),
          Js.lookup fields' "itineraries" = .arr its' →
          Js.lookup fields' "id" = Js.lookup fields "id" →
          Js.lookup fields' "price" = Js.lookup fields "price" →
          its'[0]? = its[0]? →
          segmentCountConverts (its'.getD 1 .undefined) →
          (k.normalizeOffer (.obj fields')).map (fun n =>
              (Js.prop n "id", Js.prop n "price", Js.prop n "currency"))
            = (k.normalizeOffer (.obj fields)).map (fun n =>
              (Js.prop n "id", Js.prop n "price", Js.prop n "currency"))
          ∧ (k.normalizeOffer (.obj fields')).map (fun n => Js.prop n "outbound")
              = (k.normalizeOffer (.obj fields)).map (fun n => Js.prop n "outbound")
          ∧ ∃ leg, (k.normalizeOffer (.obj fields)).map (fun n => Js.prop n "outbound")
              = .ok leg))
    ∧ (∀ e, Js.toNumber (Js.optProp (Js.optProp (its.getD 0 .undefined) "segments") "length")
          = .error e → k.normalizeOffer (.obj fields) = .error e)
    ∧ (∀ (fields₂ : List (String × JsVal)) (its₂ : List JsVal),
          (Js.lookup fields₂ "itineraries" = .arr its₂
            ∨ (Js.lookup fields₂ "itineraries" = .undefined ∧ its₂ = [])) →
          (its₂[0]? = none ∨ its₂[0]? = some .null) →
          segmentCountConverts (its₂.getD 1 .undefined) →
          (k.normalizeOffer (.obj fields₂)).map (fun n => Js.prop n "outbound")
            = .ok absentLeg) := by
  rw [Copy.normalizeOffer_eq]
  have hval : Js.or (Js.lookup fields "itineraries") (.arr []) = .arr its := by
    rcases hits with h | ⟨h, rfl⟩ <;> rw [h] <;> rfl
  have hin : itineraryOf fields 1 = .undefined := by
    rw [itineraryOf_arr fields its 1 hval, Js.getD_of_length_le _ _ hlen]
  have hout : itineraryOf fields 0 = its.getD 0 .undefined := itineraryOf_arr fields its 0 hval
  have hinConv : segmentCountConverts (itineraryOf fields 1) := by
    rw [hin]
    exact segmentCountConverts_undefined
  refine ⟨?_, ?_, ?_⟩
  · intro hconv
    rw [← hout] at hconv
    refine ⟨?_, ?_⟩
    · refine Server.normalizeOffer_absent fields 1 (by omega) ?_ hconv
      rw [hin]
      rfl
    · intro fields' its' hits' hid hprice h0 hconv1
      have hval' : Js.or (Js.lookup fields' "itineraries") (.arr []) = .arr its' := by
        rw [hits', Js.or_arr]
      have hout' : itineraryOf fields' 0 = itineraryOf fields 0 := by
        rw [itineraryOf_arr fields' its' 0 hval', hout, List.getD_eq_getElem?_getD,
          List.getD_eq_getElem?_getD, h0]
      have hconv0' : segmentCountConverts (itineraryOf fields' 0) := by
        rw [hout']
        exact hconv
      have hconv1' : segmentCountConverts (itineraryOf fields' 1) := by
        rw [itineraryOf_arr fields' its' 1 hval']
        exact hconv1
      obtain ⟨lo, so, hlo, hso⟩ := Server.leg_of_converts _ hconv
      refine ⟨?_, ?_, ?_⟩
      · rw [Server.normalizeOffer_scalars fields' hconv0' hconv1',
          Server.normalizeOffer_scalars fields hconv hinConv, hid, hprice]
      · rw [Server.normalizeOffer_outbound fields' lo so (by rw [hout']; exact hlo)
            (by rw [hout']; exact hso) hconv1',
          Server.normalizeOffer_outbound fields lo so hlo hso hinConv, hout']
      · exact ⟨_, Server.normalizeOffer_outbound fields lo so hlo hso hinConv⟩
  · intro e he
    rw [← hout] at he
    exact Server.normalizeOffer_throws fields 0 (by omega) e hinConv he
  · intro fields₂ its₂ hits₂ hnone hconv₂
    have hval₂ : Js.or (Js.lookup fields₂ "itineraries") (.arr []) = .arr its₂ := by
      rcases hits₂ with h | ⟨h, rfl⟩ <;> rw [h] <;> rfl
    refine Server.normalizeOffer_absent fields₂ 0 (by omega) ?_ ?_
    · rw [itineraryOf_arr fields₂ its₂ 0 hval₂, List.getD_eq_getElem?_getD]
      rcases hnone with h | h <;> rw [h] <;> rfl
    · rw [itineraryOf_arr fields₂ its₂ 1 hval₂]
      exact hconv₂

/-- Claim C5, as amended. For every raw offer whose itinerary for a leg
(`i = 0` outbound, `i = 1` inbound) is present but whose segments are absent
(`undefined` or `null`): when the segment count of the other itinerary converts
to a number, the normalised leg has departureAirport, departureTime,
arrivalAirport and arrivalTime absent and `stops = 0`, while its duration is
the itinerary's own duration (absent only when the itinerary carries none),
whatever other fields the itinerary carries; when it does not convert, the
normalisation throws that conversion's error and there is no normalised
offer. -/
theorem leg_without_segments (k : Copy) (fields : List (String × JsVal)) (its : List JsVal)
    (i : Nat) (itf : List (String × JsVal)) (hi : i < 2)
    (hits : Js.lookup fields "itineraries" = .arr its)
    (hit : its[i]? = some (.obj itf))
    (hseg : Js.lookup itf "segments" = .undefined ∨ Js.lookup itf "segments" = .null) :
    (segmentCountConverts (its.getD (1 - i) .undefined) →
      (k.normalizeOffer (.obj fields)).map (fun n => Js.prop n (legName i)) =
        .ok (legObject .undefined .undefined .undefined .undefined
          (Js.lookup itf "duration") 0))
    ∧ (∀ e, Js.toNumber (Js.optProp (Js.optProp (its.getD (1 - i) .undefined) "segments")
          "length") = .error e →
        k.normalizeOffer (.obj fields) = .error e) := by
  have hcase : i = 0 ∨ i = 1 := by omega
  have hval : Js.or (Js.lookup fields "itineraries") (.arr []) = .arr its := by
    rw [hits, Js.or_arr]
  have hmine : itineraryOf fields i = .obj itf := by
    rw [itineraryOf_arr fields its i hval, Js.getD_of_getElem? _ _ _ hit]
  have hother : itineraryOf fields (1 - i) = its.getD (1 - i) .undefined :=
    itineraryOf_arr fields its (1 - i) hval
  have hnull : Js.nullish (Js.optProp (.obj itf) "segments") = true := by
    rw [Js.optProp_obj]
    rcases hseg with hs | hs <;> rw [hs] <;> rfl
  obtain ⟨hfirst, hlast, hstops⟩ := Server.leg_of_absent_segments _ hnull
  have hmineConv : segmentCountConverts (itineraryOf fields i) := by
    rw [hmine]
    refine ⟨JsNum.nan, ?_⟩
    rw [Js.optProp_of_nullish _ _ hnull]
    rfl
  rw [Copy.normalizeOffer_eq]
  constructor
  · intro hconv
    rw [← hother] at hconv
    obtain ⟨lo', so', hlo', hso'⟩ := Server.leg_of_converts _ hconv
    rcases hcase with rfl | rfl
    · rw [Server.normalizeOffer_leg fields _ lo' _ so' 0 (by omega)
        (by rw [hmine]; exact hlast) hlo' (by rw [hmine]; exact hstops) hso']
      rw [hmine, hfirst]
      rfl
    · rw [Server.normalizeOffer_leg fields lo' _ so' _ 1 (by omega)
        hlo' (by rw [hmine]; exact hlast) hso' (by rw [hmine]; exact hstops)]
      rw [hmine, hfirst]
      rfl
  · intro e he
    rw [← hother] at he
    have h2 : 1 - i < 2 := by omega
    have h3 : 1 - (1 - i) = i := by omega
    exact Server.normalizeOffer_throws fields (1 - i) h2 e (by rw [h3]; exact hmineConv) he

/-- The leg theorem at a two-segment outbound (`stops = 1`) and a one-segment
inbound (`stops = 0`). -/
theorem leg_of_segments_witness :
    (Copy.normalizeOffer .server (.obj (Sample.rawOfferFields "1" "310.25"))).map
        (fun n => Js.prop n "outbound")
      = .ok (legObject (.str "JFK") (.str "2025-06-01T08:00:00") (.str "LAX")
          (.str "2025-06-01T13:10:00") (.str "PT8H10M") 1)
    ∧ (Copy.normalizeOffer .netlify (.obj (Sample.rawOfferFields "1" "310.25"))).map
        (fun n => Js.prop n "inbound")
      = .ok (legObject (.str "LAX") (.str "2025-06-10T09:00:00") (.str "JFK")
          (.str "2025-06-10T17:30:00") (.str "PT5H30M") 0) :=
  ⟨(leg_of_segments .server (Sample.rawOfferFields "1" "310.25")
      [.obj Sample.outboundItinerary, .obj Sample.inboundItinerary] 0
      Sample.outboundItinerary _ (by decide) rfl rfl rfl (by simp) (by decide)).1
      ⟨JsNum.ofInt 1, rfl⟩,
   (leg_of_segments .netlify (Sample.rawOfferFields "1" "310.25")
      [.obj Sample.outboundItinerary, .obj Sample.inboundItinerary] 1
      Sample.inboundItinerary _ (by decide) rfl rfl rfl (by simp) (by decide)).1
      ⟨JsNum.ofInt 2, rfl⟩⟩

/-- An input at which claim C3 as worded fails: the outbound itinerary has two
segments, but the segments of the inbound itinerary are the object
`\x7b"length":\x7b"toString":1\x7d\x7d`, so `inbound.segments.length - 1` throws a
`TypeError` in both copies and the offer has no normalised outbound leg. -/
theorem leg_of_segments_counterexample :
    Js.lookup Sample.brokenInboundFields "itineraries"
        = .arr [.obj Sample.outboundItinerary, .obj Sample.brokenItinerary]
    ∧ (∀ k : Copy, Copy.normalizeOffer k (.obj Sample.brokenInboundFields)
        = .error "Cannot convert object to primitive value")
    ∧ (∀ k : Copy, (Copy.normalizeOffer k (.obj Sample.brokenInboundFields)).map
          (fun n => Js.prop n "outbound")
        ≠ .ok (legObject (.str "JFK") (.str "2025-06-01T08:00:00") (.str "LAX")
          (.str "2025-06-01T13:10:00") (.str "PT8H10M") 1)) := by
  refine ⟨rfl, fun k => ?_, fun k => ?_⟩
  · set_option exponentiation.threshold 5000 in
    cases k <;> rfl
  · set_option exponentiation.threshold 5000 in
    cases k <;> exact fun h => Except.noConfusion h

/-- The missing-inbound theorem at an offer with the outbound itinerary only. -/
theorem missing_inbound_leg_witness :
    (Copy.normalizeOffer .server (.obj Sample.oneWayOfferFields)).map
        (fun n => Js.prop n "inbound") = .ok absentLeg
    ∧ (Copy.normalizeOffer .server (.obj (Sample.rawOfferFields "7" "120.00"))).map
        (fun n => Js.prop n "outbound")
      = (Copy.normalizeOffer .server (.obj Sample.oneWayOfferFields)).map
        (fun n => Js.prop n "outbound") :=
  ⟨((missing_inbound_leg .server Sample.oneWayOfferFields [.obj Sample.outboundItinerary]
      (Or.inl rfl) (by decide)).1 ⟨JsNum.ofInt 2, rfl⟩).1,
   (((missing_inbound_leg .server Sample.oneWayOfferFields [.obj Sample.outboundItinerary]
      (Or.inl rfl) (by decide)).1 ⟨JsNum.ofInt 2, rfl⟩).2 (Sample.rawOfferFields "7" "120.00")
      [.obj Sample.outboundItinerary, .obj Sample.inboundItinerary] rfl rfl rfl rfl
      ⟨JsNum.ofInt 1, rfl⟩).2.1⟩

/-- An input at which claim C4 as worded fails: the offer has only one
itinerary, whose segments are the object `\x7b"length":\x7b"toString":1\x7d\x7d`, so
`outbound.segments.length - 1` throws a `TypeError` in both copies and the
offer has no normalised inbound leg. -/
theorem missing_inbound_leg_counterexample :
    Js.lookup Sample.brokenOutboundFields "itineraries" = .arr [.obj Sample.brokenItinerary]
    ∧ (∀ k : Copy, Copy.normalizeOffer k (.obj Sample.brokenOutboundFields)
        = .error "Cannot convert object to primitive value")
    ∧ (∀ k : Copy, (Copy.normalizeOffer k (.obj Sample.brokenOutboundFields)).map
          (fun n => Js.prop n "inbound") ≠ .ok absentLeg) := by
  refine ⟨rfl, fun k => ?_, fun k => ?_⟩
  · set_option exponentiation.threshold 5000 in
    cases k <;> rfl
  · set_option exponentiation.threshold 5000 in
    cases k <;> exact fun h => Except.noConfusion h

/-- The amended leg theorem at an itinerary carrying a duration and no
segments. -/
theorem leg_without_segments_witness :
    (Copy.normalizeOffer .server (.obj Sample.noSegmentsOfferFields)).map
        (fun n => Js.prop n "outbound")
      = .ok (legObject .undefined .undefined .undefined .undefined (.str "PT5H") 0) :=
  (leg_without_segments .server Sample.noSegmentsOfferFields [.obj [("duration", .str "PT5H")]] 0
    [("duration", .str "PT5H")] (by decide) rfl rfl (Or.inl rfl)).1 ⟨JsNum.nan, rfl⟩

/-- Two inputs at which claim C5 as worded fails. An itinerary that carries a
duration and no segments: the normalised leg keeps the duration `PT5H`, it is
not absent. The same itinerary next to an inbound itinerary whose segments are
the object `\x7b"length":\x7b"toString":1\x7d\x7d`: the normalisation throws a
`TypeError` and there is no normalised leg at all. -/
theorem leg_without_segments_counterexample :
    (Copy.normalizeOffer .server (.obj Sample.noSegmentsOfferFields)).map
        (fun n => Js.prop (Js.prop n "outbound") "duration") = .ok (.str "PT5H")
    ∧ (Copy.normalizeOffer .netlify (.obj Sample.noSegmentsOfferFields)).map
        (fun n => Js.prop (Js.prop n "outbound") "duration") = .ok (.str "PT5H")
    ∧ JsVal.str "PT5H" ≠ JsVal.undefined
    ∧ (∀ k : Copy, Copy.normalizeOffer k (.obj Sample.noSegmentsBrokenFields)
        = .error "Cannot convert object to primitive value") := by
  set_option exponentiation.threshold 5000 in
  exact ⟨rfl, rfl, fun h => JsVal.noConfusion h, fun k => by cases k <;> rfl⟩

/-! ## The token cache -/

theorem Copy.getAccessToken_eq (k : Copy) : k.getAccessToken = Server.getAccessToken := by
  cases k <;> rfl

theorem Copy.tokenRequest_eq (k : Copy) : k.tokenRequest = Server.tokenRequest := by
  cases k <;> rfl

theorem Copy.searchRequest_eq (k : Copy) : k.searchRequest = Server.searchRequest := by
  cases k <;> rfl

/-- Claim C6. For every cache state holding a token (a truthy `cachedToken`):
when its recorded expiry is strictly after the current time, `getAccessToken`
returns exactly the cached token, issues no upstream request and leaves the
cached token and its expiry unchanged; when the current time equals or exceeds
the recorded expiry, the cached token is not returned without a refresh: the
credential-exchange request is issued, or the call fails. -/
theorem token_reuse (k : Copy) (env : Env) (w : World) (c : TokenCache)
    (htok : Js.truthy c.cachedToken = true) :
    (JsNum.lt w.now c.cachedTokenExpiresAt = true →
        k.getAccessToken env w c = ⟨.ok c.cachedToken, c, []⟩)
      ∧ (JsNum.le c.cachedTokenExpiresAt w.now = true →
        (k.getAccessToken env w c).requests = [k.tokenRequest env]
          ∨ ∃ e, (k.getAccessToken env w c).result = .error e) := by
  rw [Copy.getAccessToken_eq, Copy.tokenRequest_eq]
  constructor
  · intro hlt
    simp [Server.getAccessToken, htok, hlt]
  · intro hle
    have hlt : JsNum.lt w.now c.cachedTokenExpiresAt = false := JsNum.lt_false_of_le _ _ hle
    simp only [Server.getAccessToken, htok, hlt, Bool.and_false, Bool.false_eq_true, if_false]
    split
    · right; exact ⟨_, rfl⟩
    · split
      · left; rfl
      · split
        · left; rfl
        · split
          · left; rfl
          · split
            · left; rfl
            · split
              · left; rfl
              · left; rfl

/-- A successful credential exchange: what `getAccessToken` returns, stores and
requests, by the outcome of converting the declared lifetime. -/
theorem Server.getAccessToken_refresh (env : Env) (w : World) (c : TokenCache)
    (resp : HttpResponse) (tf : List (String × JsVal))
    (hstale : cacheValid c w.now = false)
    (hid : envMissing env.AMADEUS_CLIENT_ID = false)
    (hsecret : envMissing env.AMADEUS_CLIENT_SECRET = false)
    (hfetch : w.fetch (Server.tokenRequest env) = .ok resp)
    (hok : resp.ok = true) (hjson : resp.json = .ok (.obj tf)) :
    Server.getAccessToken env w c =
      match Js.toNumber (Js.or (Js.lookup tf "expires_in") (.num (JsNum.ofInt 1799))) with
      | .error e =>
        ⟨.error e, ⟨Js.lookup tf "access_token", c.cachedTokenExpiresAt⟩,
          [Server.tokenRequest env]⟩
      | .ok expiresIn =>
        ⟨.ok (Js.lookup tf "access_token"),
          ⟨Js.lookup tf "access_token",
            JsNum.add w.nowAtStore (JsNum.mul (JsNum.sub expiresIn (JsNum.ofInt 60))
              (JsNum.ofInt 1000))⟩,
          [Server.tokenRequest env]⟩ := by
  unfold cacheValid at hstale
  simp only [Server.getAccessToken, hstale, hid, hsecret, hfetch, hok, hjson, Js.getProp_obj,
    Js.prop_obj, Bool.false_eq_true, if_false, Bool.or_self, Bool.not_true]

/-- The stored expiry for an integral time and an integral lifetime within the
range where doubles are exact. -/
theorem JsNum.expiry_ofInt (t L : Int) (ht : t.natAbs < 2 ^ 52) (hL : L.natAbs < 2 ^ 32) :
    JsNum.add (JsNum.ofInt t) (JsNum.mul (JsNum.sub (JsNum.ofInt L) (JsNum.ofInt 60))
      (JsNum.ofInt 1000)) = JsNum.ofInt (t + (L - 60) * 1000) := by
  rw [JsNum.sub_ofInt L 60 (by omega), JsNum.mul_ofInt (L - 60) 1000 (by omega),
    JsNum.add_ofInt t ((L - 60) * 1000) (by omega)]

/-- Claim C7, as amended. For every successful credential exchange completed
at time `t`, `getAccessToken` issues the one credential request and stores the
returned access token, replacing any prior cache value. When
`Number(expires_in || 1799)` gives a number `L`, the call returns that token and
stores the expiry `t + (L - 60) * 1000` milliseconds, computed in double
arithmetic; for an integral time and a declared lifetime that is a non-zero
integer of seconds this is exactly `t + (L - 60)` seconds, and for a lifetime
that is absent, `null`, `0`, `""` or `false` it is `t + 1739` seconds. When the
conversion throws, the call throws that error, the token has already been
replaced and the expiry keeps its prior value. -/
theorem token_refresh (k : Copy) (env : Env) (w : World) (c : TokenCache)
    (resp : HttpResponse) (tf : List (String × JsVal))
    (hstale : cacheValid c w.now = false)
    (hid : envMissing env.AMADEUS_CLIENT_ID = false)
    (hsecret : envMissing env.AMADEUS_CLIENT_SECRET = false)
    (hfetch : w.fetch (k.tokenRequest env) = .ok resp)
    (hok : resp.ok = true) (hjson : resp.json = .ok (.obj tf)) :
    (k.getAccessToken env w c).cache.cachedToken = Js.lookup tf "access_token"
      ∧ (k.getAccessToken env w c).requests = [k.tokenRequest env]
      ∧ (∀ L : JsNum,
          Js.toNumber (Js.or (Js.lookup tf "expires_in") (.num (JsNum.ofInt 1799))) = .ok L →
          (k.getAccessToken env w c).result = .ok (Js.lookup tf "access_token")
            ∧ (k.getAccessToken env w c).cache.cachedTokenExpiresAt =
              JsNum.add w.nowAtStore (JsNum.mul (JsNum.sub L (JsNum.ofInt 60))
                (JsNum.ofInt 1000)))
      ∧ (∀ e : String,
          Js.toNumber (Js.or (Js.lookup tf "expires_in") (.num (JsNum.ofInt 1799))) = .error e →
          (k.getAccessToken env w c).result = .error e
            ∧ (k.getAccessToken env w c).cache.cachedTokenExpiresAt = c.cachedTokenExpiresAt)
      ∧ (∀ t L : Int, w.nowAtStore = JsNum.ofInt t → t.natAbs < 2 ^ 52 →
          Js.lookup tf "expires_in" = .num (JsNum.ofInt L) → L ≠ 0 → L.natAbs < 2 ^ 32 →
          (k.getAccessToken env w c).result = .ok (Js.lookup tf "access_token")
            ∧ (k.getAccessToken env w c).cache.cachedTokenExpiresAt
              = JsNum.ofInt (t + (L - 60) * 1000))
      ∧ (∀ t : Int, w.nowAtStore = JsNum.ofInt t → t.natAbs < 2 ^ 52 →
          (Js.lookup tf "expires_in" = .undefined ∨ Js.lookup tf "expires_in" = .null
            ∨ Js.lookup tf "expires_in" = .num (JsNum.ofInt 0)
            ∨ Js.lookup tf "expires_in" = .str ""
            ∨ Js.lookup tf "expires_in" = .bool false) →
          (k.getAccessToken env w c).result = .ok (Js.lookup tf "access_token")
            ∧ (k.getAccessToken env w c).cache.cachedTokenExpiresAt
              = JsNum.ofInt (t + 1739 * 1000)) := by
  rw [Copy.tokenRequest_eq] at hfetch
  rw [Copy.getAccessToken_eq, Copy.tokenRequest_eq,
    Server.getAccessToken_refresh env w c resp tf hstale hid hsecret hfetch hok hjson]
  have hok : ∀ L : JsNum,
      Js.toNumber (Js.or (Js.lookup tf "expires_in") (.num (JsNum.ofInt 1799))) = .ok L →
      (match Js.toNumber (Js.or (Js.lookup tf "expires_in") (.num (JsNum.ofInt 1799))) with
        | .error e =>
          (⟨.error e, ⟨Js.lookup tf "access_token", c.cachedTokenExpiresAt⟩,
            [Server.tokenRequest env]⟩ : TokenOutcome)
        | .ok expiresIn =>
          ⟨.ok (Js.lookup tf "access_token"),
            ⟨Js.lookup tf "access_token",
              JsNum.add w.nowAtStore (JsNum.mul (JsNum.sub expiresIn (JsNum.ofInt 60))
                (JsNum.ofInt 1000))⟩,
            [Server.tokenRequest env]⟩)
        = ⟨.ok (Js.lookup tf "access_token"),
            ⟨Js.lookup tf "access_token",
              JsNum.add w.nowAtStore (JsNum.mul (JsNum.sub L (JsNum.ofInt 60))
                (JsNum.ofInt 1000))⟩,
            [Server.tokenRequest env]⟩ := by
    intro L hL
    rw [hL]
  refine ⟨?_, ?_, ?_, ?_, ?_, ?_⟩
  · cases h : Js.toNumber (Js.or (Js.lookup tf "expires_in") (.num (JsNum.ofInt 1799))) <;> rfl
  · cases h : Js.toNumber (Js.or (Js.lookup tf "expires_in") (.num (JsNum.ofInt 1799))) <;> rfl
  · intro L hL
    rw [hok L hL]
    exact ⟨rfl, rfl⟩
  · intro e he
    rw [he]
    exact ⟨rfl, rfl⟩
  · intro t L ht htb hL hL0 hLb
    have hconv : Js.toNumber (Js.or (Js.lookup tf "expires_in") (.num (JsNum.ofInt 1799)))
        = .ok (JsNum.ofInt L) := by
      rw [hL]
      unfold Js.or
      have htr : Js.truthy (.num (JsNum.ofInt L)) = true := by
        show (!(JsNum.ofInt L).isFalsy) = true
        rw [JsNum.isFalsy_ofInt]
        simp [hL0]
      rw [if_pos htr]
      rfl
    rw [hok _ hconv, ht, JsNum.expiry_ofInt t L htb hLb]
    exact ⟨rfl, rfl⟩
  · intro t ht htb hv
    have hconv : Js.toNumber (Js.or (Js.lookup tf "expires_in") (.num (JsNum.ofInt 1799)))
        = .ok (JsNum.ofInt 1799) := by
      have hfalsy : Js.truthy (Js.lookup tf "expires_in") = false := by
        rcases hv with h | h | h | h | h <;> rw [h]
        · rfl
        · rfl
        · show (!(JsNum.ofInt 0).isFalsy) = false
          rw [JsNum.isFalsy_ofInt]
          rfl
        · rfl
        · rfl
      unfold Js.or
      rw [if_neg (by rw [hfalsy]; exact Bool.false_ne_true)]
      rfl
    rw [hok _ hconv, ht, JsNum.expiry_ofInt t 1799 htb (by decide)]
    exact ⟨rfl, rfl⟩

/-! ## The whole pipeline -/

theorem errorMessage_tokenFailure (status : Nat) (text : String) :
    errorMessage ("Token request failed: " ++ Nat.repr status ++ " " ++ text)
      = "Token request failed: " ++ Nat.repr status ++ " " ++ text := by
  unfold errorMessage
  rw [if_neg]
  intro h
  have hd := congrArg String.data h
  simp [String.data_append] at hd

/-- A valid query passes both validation branches of the Express route: the
route goes on to `getAccessToken`. -/
theorem Server.searchFlights_valid (env : Env) (w : World) (c : TokenCache)
    (fields : List (String × JsVal)) (o d dd rd : String) (hq : validQuery fields o d dd rd) :
    Server.searchFlights env w c (.obj fields) =
      match (Server.getAccessToken env w c).result with
      | .error e =>
        ⟨⟨500, errorBody (errorMessage e)⟩, (Server.getAccessToken env w c).cache,
          (Server.getAccessToken env w c).requests⟩
      | .ok accessToken =>
        match Server.searchRequest env (.str o) (.str d) (.str dd) (.str rd) accessToken with
        | .error e =>
          ⟨⟨500, errorBody (errorMessage e)⟩, (Server.getAccessToken env w c).cache,
            (Server.getAccessToken env w c).requests⟩
        | .ok request =>
          match w.fetch request with
          | .error e =>
            ⟨⟨500, errorBody (errorMessage e)⟩, (Server.getAccessToken env w c).cache,
              (Server.getAccessToken env w c).requests ++ [request]⟩
          | .ok searchResponse =>
            if !searchResponse.ok then
              ⟨⟨searchResponse.status,
                  errorBody ("Flight search failed: " ++ searchResponse.text)⟩,
                (Server.getAccessToken env w c).cache,
                (Server.getAccessToken env w c).requests ++ [request]⟩
            else
              match searchResponse.json with
              | .error e =>
                ⟨⟨500, errorBody (errorMessage e)⟩, (Server.getAccessToken env w c).cache,
                  (Server.getAccessToken env w c).requests ++ [request]⟩
              | .ok searchData =>
                match Server.buildOffers searchData with
                | .error e =>
                  ⟨⟨500, errorBody (errorMessage e)⟩, (Server.getAccessToken env w c).cache,
                    (Server.getAccessToken env w c).requests ++ [request]⟩
                | .ok offers =>
                  ⟨⟨200, .obj [("offers", .arr offers)]⟩,
                    (Server.getAccessToken env w c).cache,
                    (Server.getAccessToken env w c).requests ++ [request]⟩ := by
  obtain ⟨h1, h2, h3, h4, ho, hd, hdd, hrd, hne⟩ := hq
  simp only [Server.searchFlights, Js.or_obj, Js.prop, h1, h2, h3, h4,
    Js.truthy_str _ ho, Js.truthy_str _ hd, Js.truthy_str _ hdd, Js.truthy_str _ hrd,
    Js.strictEq_str _ _ hne, Bool.not_true, Bool.or_self, Bool.false_eq_true, if_false]

/-- The two copies give the same outcome on every `POST` request with a JSON
object body. -/
theorem Copy.search_eq (k : Copy) (jsonParse : String → Except String JsVal) (env : Env)
    (w : World) (c : TokenCache) (text : String) (fields : List (String × JsVal))
    (htext : text ≠ "") (hparse : jsonParse text = .ok (.obj fields)) :
    k.search jsonParse env w c text (.obj fields)
      = ⟨⟨(Server.searchFlights env w c (.obj fields)).response.status,
          (Server.searchFlights env w c (.obj fields)).response.payload⟩,
        (Server.searchFlights env w c (.obj fields)).cache,
        (Server.searchFlights env w c (.obj fields)).requests⟩ := by
  cases k
  · rfl
  · have hg : Netlify.getAccessToken = Server.getAccessToken := rfl
    have hb : Netlify.buildOffers = Server.buildOffers := rfl
    have hs : Netlify.searchRequest = Server.searchRequest := rfl
    simp only [Copy.search, Server.searchFlights, Netlify.handler,
      Netlify.parseBody_text jsonParse text _ htext hparse, Netlify.destructureBody,
      Js.or_obj, Js.prop, hg, hb, hs]
    simp only [ne_eq, not_true_eq_false, if_false]
    split
    · rfl
    · split
      · rfl
      · split
        · rfl
        · split
          · rfl
          · split
            · rfl
            · split
              · rfl
              · split
                · rfl
                · split
                  · rfl
                  · rfl

/-- Claim C8. For every valid query and valid token, in either copy, when the
upstream flight-search call answers unsuccessfully (status outside 200-299)
with status `s` and body text `b`, the search answers with that same status
`s` and the payload `\x7b error: "Flight search failed: " + b \x7d`, whose error
message contains `b`, and the payload carries no offers. The call is made
whenever the query and the token convert to the text of a request; when the
token does not, no flight-search call is made at all. -/
theorem search_failure_passthrough (k : Copy) (jsonParse : String → Except String JsVal)
    (env : Env) (w : World) (c : TokenCache) (text : String)
    (fields : List (String × JsVal)) (o d dd rd : String) (tok : JsVal)
    (htext : text ≠ "") (hparse : jsonParse text = .ok (.obj fields))
    (hq : validQuery fields o d dd rd)
    (htok : (k.getAccessToken env w c).result = .ok tok) :
    (∀ (req : Request) (resp : HttpResponse),
        k.searchRequest env (.str o) (.str d) (.str dd) (.str rd) tok = .ok req →
        w.fetch req = .ok resp → resp.ok = false →
        (k.search jsonParse env w c text (.obj fields)).response.status = resp.status
          ∧ (k.search jsonParse env w c text (.obj fields)).response.payload
            = .obj [("error", .str ("Flight search failed: " ++ resp.text))]
          ∧ (∃ msg, Js.prop (k.search jsonParse env w c text (.obj fields)).response.payload
              "error" = .str msg ∧ resp.text.data <:+: msg.data)
          ∧ Js.prop (k.search jsonParse env w c text (.obj fields)).response.payload "offers"
            = .undefined
          ∧ (k.search jsonParse env w c text (.obj fields)).requests
            = (k.getAccessToken env w c).requests ++ [req])
      ∧ (∀ e : String,
        k.searchRequest env (.str o) (.str d) (.str dd) (.str rd) tok = .error e →
        (k.search jsonParse env w c text (.obj fields)).requests
          = (k.getAccessToken env w c).requests) := by
  rw [Copy.search_eq k jsonParse env w c text fields htext hparse]
  rw [Copy.getAccessToken_eq] at htok
  rw [Copy.getAccessToken_eq, Copy.searchRequest_eq]
  constructor
  · intro req resp hreq hfetch hfail
    have hS : Server.searchFlights env w c (.obj fields) =
        ⟨⟨resp.status, errorBody ("Flight search failed: " ++ resp.text)⟩,
          (Server.getAccessToken env w c).cache,
          (Server.getAccessToken env w c).requests ++ [req]⟩ := by
      rw [Server.searchFlights_valid env w c fields o d dd rd hq]
      simp only [htok, hreq, hfetch, hfail, Bool.not_false, if_true]
    rw [hS]
    refine ⟨rfl, rfl, ⟨"Flight search failed: " ++ resp.text, rfl, ?_⟩, rfl, rfl⟩
    rw [String.data_append]
    exact (List.suffix_append _ _).isInfix
  · intro e hreq
    have hS : Server.searchFlights env w c (.obj fields) =
        ⟨⟨500, errorBody (errorMessage e)⟩, (Server.getAccessToken env w c).cache,
          (Server.getAccessToken env w c).requests⟩ := by
      rw [Server.searchFlights_valid env w c fields o d dd rd hq]
      simp only [htok, hreq]
    rw [hS]

/-- Claim C9, as amended. For every valid query, when no valid token is cached,
the secrets are configured and the credential exchange answers unsuccessfully
with upstream status `s` and body text `b`, either copy answers with status
500, not with `s`, and the payload `\x7b error: "Token request failed: s b" \x7d`,
whose message carries the upstream status code and the body text; the cache is
left as it was and the credential exchange is the only upstream request.
Missing configuration is answered with status 500 as well, without any
upstream request. -/
theorem token_failure_is_500 (k : Copy) (jsonParse : String → Except String JsVal)
    (env : Env) (w : World) (c : TokenCache) (text : String)
    (fields : List (String × JsVal)) (o d dd rd : String)
    (htext : text ≠ "") (hparse : jsonParse text = .ok (.obj fields))
    (hq : validQuery fields o d dd rd)
    (hstale : cacheValid c w.now = false) :
    (∀ resp : HttpResponse,
        envMissing env.AMADEUS_CLIENT_ID = false →
        envMissing env.AMADEUS_CLIENT_SECRET = false →
        w.fetch (k.tokenRequest env) = .ok resp → resp.ok = false →
        k.search jsonParse env w c text (.obj fields) =
          ⟨⟨500, .obj [("error",
              .str ("Token request failed: " ++ Nat.repr resp.status ++ " " ++ resp.text))]⟩,
            c, [k.tokenRequest env]⟩)
      ∧ ((envMissing env.AMADEUS_CLIENT_ID = true
            ∨ envMissing env.AMADEUS_CLIENT_SECRET = true) →
        k.search jsonParse env w c text (.obj fields) =
          ⟨⟨500, .obj [("error", .str "Missing AMADEUS_CLIENT_ID or AMADEUS_CLIENT_SECRET")]⟩,
            c, []⟩) := by
  unfold cacheValid at hstale
  rw [Copy.search_eq k jsonParse env w c text fields htext hparse,
    Server.searchFlights_valid env w c fields o d dd rd hq, Copy.tokenRequest_eq]
  constructor
  · intro resp hid hsecret hfetch hfail
    have htoken : Server.getAccessToken env w c =
        ⟨.error ("Token request failed: " ++ Nat.repr resp.status ++ " " ++ resp.text), c,
          [Server.tokenRequest env]⟩ := by
      simp [Server.getAccessToken, hstale, hid, hsecret, hfetch, hfail]
    rw [htoken]
    simp only [errorMessage_tokenFailure]
    rfl
  · intro hmissing
    have htoken : Server.getAccessToken env w c =
        ⟨.error "Missing AMADEUS_CLIENT_ID or AMADEUS_CLIENT_SECRET", c, []⟩ := by
      have hor : (envMissing env.AMADEUS_CLIENT_ID || envMissing env.AMADEUS_CLIENT_SECRET)
          = true := by
        rcases hmissing with h | h <;> simp [h]
      simp [Server.getAccessToken, hstale, hor]
    rw [htoken]
    rfl

/-- A computation that ends in an object literal yields, when it succeeds, a
value that is not `undefined` or `null`. -/
theorem Js.not_nullish_bind {α : Type} (m : Except String α) (f : α → Except String JsVal)
    (h : ∀ a n, f a = .ok n → Js.nullish n = false) :
    ∀ n, (m >>= f) = .ok n → Js.nullish n = false := by
  intro n hn
  cases m with
  | error e => exact Except.noConfusion hn
  | ok a => exact h a n hn

/-- A normalised offer is an object, never `undefined` or `null`. -/
theorem Server.normalizeOffer_not_nullish (raw n : JsVal)
    (h : Server.normalizeOffer raw = .ok n) : Js.nullish n = false := by
  revert n
  unfold Server.normalizeOffer
  refine Js.not_nullish_bind _ _ (fun _ => ?_)
  refine Js.not_nullish_bind _ _ (fun _ => ?_)
  refine Js.not_nullish_bind _ _ (fun _ => ?_)
  refine Js.not_nullish_bind _ _ (fun _ => ?_)
  refine Js.not_nullish_bind _ _ (fun _ => ?_)
  refine Js.not_nullish_bind _ _ (fun _ => ?_)
  refine Js.not_nullish_bind _ _ (fun _ => ?_)
  refine Js.not_nullish_bind _ _ (fun _ => ?_)
  refine Js.not_nullish_bind _ _ (fun _ => ?_)
  intro n hn
  cases hn
  rfl

theorem Js.arrayMap_not_nullish (raws : List JsVal) :
    ∀ offers, Js.arrayMap Server.normalizeOffer raws = .ok offers →
      ∀ x ∈ offers, Js.nullish x = false := by
  induction raws with
  | nil =>
    intro offers h x hx
    cases h
    exact absurd hx (List.not_mem_nil _)
  | cons r rs ih =>
    intro offers h x hx
    unfold Js.arrayMap at h
    cases hr : Server.normalizeOffer r with
    | error e =>
      rw [hr] at h
      exact Except.noConfusion h
    | ok y =>
      rw [hr] at h
      cases hrs : Js.arrayMap Server.normalizeOffer rs with
      | error e =>
        rw [hrs] at h
        exact Except.noConfusion h
      | ok ys =>
        rw [hrs] at h
        cases h
        rcases List.mem_cons.mp hx with rfl | hmem
        · exact Server.normalizeOffer_not_nullish r _ hr
        · exact ih ys hrs x hmem

/-- Lines 93-127 on a response whose `data` is a list of offers: the outcome
of the normalisation followed by the sort. -/
theorem Server.buildOffers_data (sfields : List (String × JsVal)) (raws : List JsVal)
    (hdata : Js.or (Js.lookup sfields "data") (.arr []) = .arr raws) :
    Server.buildOffers (.obj sfields) =
      match Js.arrayMap Server.normalizeOffer raws with
      | .error e => .error e
      | .ok offers => Js.sortWith Server.comparePrice offers := by
  simp only [Server.buildOffers, Js.getProp_obj, hdata, bind, Except.bind, pure,
    Except.pure]
  cases Js.arrayMap Server.normalizeOffer raws <;> rfl

/-- Claim C2, as amended. For every successful upstream response to a valid
query, with `raws` the list `data || []` of its offers: when the offers all
normalise and all carry a price that converts to a
number (not `NaN`), the search answers 200 and the offers list it returns, in
either copy, is a permutation of the normalised upstream offers (same length,
nothing dropped or duplicated) in ascending order of price compared as a
number (a double), not as a string; when the normalisation of an offer throws,
the search answers 500 with that error and returns no offers list. -/
theorem offers_sorted_by_price (k : Copy) (jsonParse : String → Except String JsVal)
    (env : Env) (w : World) (c : TokenCache) (text : String)
    (fields : List (String × JsVal)) (o d dd rd : String) (tok : JsVal) (req : Request)
    (resp : HttpResponse) (sfields : List (String × JsVal)) (raws : List JsVal)
    (htext : text ≠ "") (hparse : jsonParse text = .ok (.obj fields))
    (hq : validQuery fields o d dd rd)
    (htok : (k.getAccessToken env w c).result = .ok tok)
    (hreq : k.searchRequest env (.str o) (.str d) (.str dd) (.str rd) tok = .ok req)
    (hfetch : w.fetch req = .ok resp)
    (hok : resp.ok = true) (hjson : resp.json = .ok (.obj sfields))
    (hdata : Js.or (Js.lookup sfields "data") (.arr []) = .arr raws) :
    (∀ offers : List JsVal, Js.arrayMap k.normalizeOffer raws = .ok offers →
        (∀ x ∈ offers, numericPrice x) →
        ∃ sorted : List JsVal,
          (k.search jsonParse env w c text (.obj fields)).response
              = ⟨200, .obj [("offers", .arr sorted)]⟩
            ∧ sorted.Perm offers
            ∧ sorted.length = offers.length
            ∧ sortedByPrice sorted)
      ∧ (∀ e : String, Js.arrayMap k.normalizeOffer raws = .error e →
        (k.search jsonParse env w c text (.obj fields)).response
          = ⟨500, .obj [("error", .str (errorMessage e))]⟩) := by
  rw [Copy.getAccessToken_eq] at htok
  rw [Copy.searchRequest_eq] at hreq
  rw [Copy.normalizeOffer_eq, Copy.search_eq k jsonParse env w c text fields htext hparse]
  constructor
  · intro offers hnorm hnum
    have hall : ∀ y ∈ offers, Js.nullish y = false ∧ numericPrice y :=
      fun y hy => ⟨Js.arrayMap_not_nullish raws offers hnorm y hy, hnum y hy⟩
    obtain ⟨sorted, hsort, hperm, hsorted⟩ := sorted_sortWith offers hall
    have hbuild : Server.buildOffers (.obj sfields) = .ok sorted := by
      rw [Server.buildOffers_data sfields raws hdata, hnorm]
      exact hsort
    have hS : Server.searchFlights env w c (.obj fields) =
        ⟨⟨200, .obj [("offers", .arr sorted)]⟩, (Server.getAccessToken env w c).cache,
          (Server.getAccessToken env w c).requests ++ [req]⟩ := by
      rw [Server.searchFlights_valid env w c fields o d dd rd hq]
      simp only [htok, hreq, hfetch, hok, hjson, hbuild, Bool.not_true, Bool.false_eq_true,
        if_false]
    rw [hS]
    exact ⟨sorted, rfl, hperm, hperm.length_eq, hsorted⟩
  · intro e hnorm
    have hbuild : Server.buildOffers (.obj sfields) = .error e := by
      rw [Server.buildOffers_data sfields raws hdata, hnorm]
    have hS : Server.searchFlights env w c (.obj fields) =
        ⟨⟨500, errorBody (errorMessage e)⟩, (Server.getAccessToken env w c).cache,
          (Server.getAccessToken env w c).requests ++ [req]⟩ := by
      rw [Server.searchFlights_valid env w c fields o d dd rd hq]
      simp only [htok, hreq, hfetch, hok, hjson, hbuild, Bool.not_true, Bool.false_eq_true,
        if_false]
    rw [hS]
    rfl

/-- Claim C10. The two copies agree: for every `POST` request with a JSON
object body, every token-cache state, every configuration and every upstream,
the Express route and the Netlify handler answer with the same status code and
the same payload, issue the same upstream requests in the same order, and
leave the token cache in the same state. -/
theorem copies_agree (jsonParse : String → Except String JsVal) (env : Env) (w : World)
    (c : TokenCache) (text : String) (fields : List (String × JsVal))
    (htext : text ≠ "") (hparse : jsonParse text = .ok (.obj fields)) :
    Copy.search .server jsonParse env w c text (.obj fields)
      = Copy.search .netlify jsonParse env w c text (.obj fields) := by
  rw [Copy.search_eq .server jsonParse env w c text fields htext hparse,
    Copy.search_eq .netlify jsonParse env w c text fields htext hparse]

/-! ## The theorems at the sample inputs -/

theorem Sample.validQuery_query :
    validQuery Sample.queryFields "JFK" "LAX" "2025-06-01" "2025-06-10" := by
  refine ⟨rfl, rfl, rfl, rfl, ?_, ?_, ?_, ?_, ?_⟩ <;> decide

theorem Sample.normalizedOffers_numeric :
    ∀ x ∈ Sample.normalizedOffers, numericPrice x := by
  intro x hx
  simp only [Sample.normalizedOffers, List.mem_cons, List.mem_singleton, List.not_mem_nil,
    or_false] at hx
  set_option exponentiation.threshold 5000 in
  rcases hx with rfl | rfl | rfl <;> exact ⟨_, rfl, rfl⟩

/-- Two prices that are the same double, `9007199254740993` and
`9007199254740992`, and two that overflow to `Infinity`: the comparator gives
`0` or `NaN`, and the sort keeps the upstream order. -/
theorem Sample.sort_same_double :
    Js.stringToNumber "9007199254740993" = Js.stringToNumber "9007199254740992"
    ∧ Js.sortWith Server.comparePrice
        [Sample.normalized "a" "9007199254740993", Sample.normalized "b" "9007199254740992"]
      = .ok [Sample.normalized "a" "9007199254740993",
          Sample.normalized "b" "9007199254740992"]
    ∧ Js.sortWith Server.comparePrice
        [Sample.normalized "a" "1e500", Sample.normalized "b" "1e400"]
      = .ok [Sample.normalized "a" "1e500", Sample.normalized "b" "1e400"] := by
  set_option exponentiation.threshold 5000 in
  exact ⟨rfl, rfl, rfl⟩

/-- The sort theorem at three offers priced 250.00, 99.50 and 400.10: they come
out as 99.50, 250.00, 400.10, each price still the original string. -/
theorem offers_sorted_by_price_witness :
    (∃ sorted : List JsVal,
      (Copy.search .server Sample.jsonParse Sample.env Sample.worldOk TokenCache.initial
          Sample.queryText (.obj Sample.queryFields)).response
          = ⟨200, .obj [("offers", .arr sorted)]⟩
        ∧ sorted.Perm Sample.normalizedOffers
        ∧ sorted.length = Sample.normalizedOffers.length
        ∧ sortedByPrice sorted)
    ∧ (Copy.search .server Sample.jsonParse Sample.env Sample.worldOk TokenCache.initial
          Sample.queryText (.obj Sample.queryFields)).response
        = ⟨200, .obj [("offers", .arr [Sample.normalized "2" "99.50",
            Sample.normalized "1" "250.00", Sample.normalized "3" "400.10"])]⟩ := by
  set_option exponentiation.threshold 5000 in
  exact ⟨(offers_sorted_by_price .server Sample.jsonParse Sample.env Sample.worldOk
      TokenCache.initial Sample.queryText Sample.queryFields "JFK" "LAX" "2025-06-01"
      "2025-06-10" (.str "token-1") Sample.searchRequest Sample.searchOk Sample.searchFields
      Sample.rawOffers (by decide) (by rfl) Sample.validQuery_query (by rfl) (by rfl)
      (by rfl) (by rfl) (by rfl) (by rfl)).1 Sample.normalizedOffers (by rfl)
      Sample.normalizedOffers_numeric,
   by rfl⟩

/-- An input at which claim C2 as worded fails: a successful upstream response
whose single offer carries the price `100.00`, which parses as a number, and
an inbound itinerary whose segments are the object
`\x7b"length":\x7b"toString":1\x7d\x7d`. The normalisation throws a `TypeError`, and
both copies answer 500 with an error and no offers list. -/
theorem offers_sorted_by_price_counterexample :
    Sample.searchBroken.ok = true
    ∧ Js.toNumber (Js.optProp (Js.lookup Sample.brokenInboundFields "price") "total")
        = .ok (JsNum.ofInt 100)
    ∧ (∀ k : Copy,
        (Copy.search k Sample.jsonParse Sample.env Sample.worldBroken TokenCache.initial
          Sample.queryText (.obj Sample.queryFields)).response.status = 500
        ∧ (Copy.search k Sample.jsonParse Sample.env Sample.worldBroken TokenCache.initial
          Sample.queryText (.obj Sample.queryFields)).response.payload
            = .obj [("error", .str "Cannot convert object to primitive value")]
        ∧ Js.prop (Copy.search k Sample.jsonParse Sample.env Sample.worldBroken
            TokenCache.initial Sample.queryText (.obj Sample.queryFields)).response.payload
            "offers" = .undefined) := by
  set_option exponentiation.threshold 5000 in
  exact ⟨rfl, rfl, fun k => by cases k <;> exact ⟨rfl, rfl, rfl⟩⟩

/-- The reuse theorem at a token expiring at 2000000 read at 1000000, and at a
token that expired at 1000000 read at 1000000. -/
theorem token_reuse_witness :
    Copy.getAccessToken .server Sample.env Sample.worldOk Sample.warmCache
        = ⟨.ok (.str "cached-token"), Sample.warmCache, []⟩
    ∧ ((Copy.getAccessToken .netlify Sample.env Sample.worldOk Sample.expiredCache).requests
          = [Copy.tokenRequest .netlify Sample.env]
        ∨ ∃ e, (Copy.getAccessToken .netlify Sample.env Sample.worldOk
          Sample.expiredCache).result = .error e) := by
  set_option exponentiation.threshold 5000 in
  exact ⟨(token_reuse .server Sample.env Sample.worldOk Sample.warmCache rfl).1 rfl,
   (token_reuse .netlify Sample.env Sample.worldOk Sample.expiredCache rfl).2 rfl⟩

/-- The refresh theorem at a declared lifetime of 3600 seconds, at an absent
lifetime and at the fractional lifetime 3000.0022, all stored at time 1000250:
the last expiry is the double `3940252.1999999997`, not `3940252.2`. -/
theorem token_refresh_witness :
    ((Copy.getAccessToken .server Sample.env Sample.worldOk TokenCache.initial).result
        = .ok (.str "token-1")
      ∧ (Copy.getAccessToken .server Sample.env Sample.worldOk
        TokenCache.initial).cache.cachedTokenExpiresAt
        = JsNum.ofInt (1000250 + (3600 - 60) * 1000))
    ∧ ((Copy.getAccessToken .netlify Sample.env (Sample.worldLifetime .undefined)
        Sample.expiredCache).result = .ok (.str "token-1")
      ∧ (Copy.getAccessToken .netlify Sample.env (Sample.worldLifetime .undefined)
        Sample.expiredCache).cache.cachedTokenExpiresAt
        = JsNum.ofInt (1000250 + 1739 * 1000))
    ∧ ((Copy.getAccessToken .server Sample.env
        (Sample.worldLifetime (.num (Js.stringToNumber "3000.0022")))
        TokenCache.initial).result = .ok (.str "token-1")
      ∧ (Copy.getAccessToken .server Sample.env
        (Sample.worldLifetime (.num (Js.stringToNumber "3000.0022")))
        TokenCache.initial).cache.cachedTokenExpiresAt
        = Js.stringToNumber "3940252.1999999997")
    ∧ Js.stringToNumber "3940252.1999999997" ≠ Js.stringToNumber "3940252.2" := by
  set_option exponentiation.threshold 5000 in
  exact ⟨(token_refresh .server Sample.env Sample.worldOk TokenCache.initial
      (Sample.tokenOk (.num (JsNum.ofInt 3600))) (Sample.tokenFields (.num (JsNum.ofInt 3600)))
      rfl rfl rfl rfl rfl rfl).2.2.2.2.1 1000250 3600 rfl (by decide) rfl (by decide)
      (by decide),
   (token_refresh .netlify Sample.env (Sample.worldLifetime .undefined) Sample.expiredCache
      (Sample.tokenOk .undefined) (Sample.tokenFields .undefined)
      rfl rfl rfl rfl rfl rfl).2.2.2.2.2 1000250 rfl (by decide) (Or.inl rfl),
   (token_refresh .server Sample.env
      (Sample.worldLifetime (.num (Js.stringToNumber "3000.0022"))) TokenCache.initial
      (Sample.tokenOk (.num (Js.stringToNumber "3000.0022")))
      (Sample.tokenFields (.num (Js.stringToNumber "3000.0022")))
      rfl rfl rfl rfl rfl rfl).2.2.1 (Js.stringToNumber "3000.0022") rfl,
   by decide⟩

/-- Three inputs at which claim C7 as worded fails. A declared lifetime
`"soon"`, not a valid number, stores the expiry `NaN` rather than `t + 1739`
seconds. A declared lifetime of `0` seconds stores `t + 1739` seconds rather
than `t - 60` seconds. A declared lifetime `\x7b"toString":1\x7d` makes
`Number(...)` throw a `TypeError`: the token is not returned, although it has
replaced the cached one, and the expiry stays the prior one. -/
theorem token_refresh_counterexample :
    (Copy.getAccessToken .server Sample.env (Sample.worldLifetime (.str "soon"))
        TokenCache.initial).cache.cachedTokenExpiresAt = JsNum.nan
    ∧ JsNum.nan ≠ JsNum.ofInt (1000250 + 1739 * 1000)
    ∧ (Copy.getAccessToken .server Sample.env (Sample.worldLifetime (.num (JsNum.ofInt 0)))
        TokenCache.initial).cache.cachedTokenExpiresAt = JsNum.ofInt (1000250 + 1739 * 1000)
    ∧ JsNum.eqv (JsNum.ofInt (1000250 + 1739 * 1000)) (JsNum.ofInt (1000250 + (0 - 60) * 1000))
        = false
    ∧ (∀ k : Copy,
        Copy.getAccessToken k Sample.env
          (Sample.worldLifetime (.obj [("toString", .num (JsNum.ofInt 1))])) Sample.expiredCache
        = ⟨.error "Cannot convert object to primitive value",
            ⟨.str "token-1", JsNum.ofInt 1000000⟩, [Server.tokenRequest Sample.env]⟩) := by
  set_option exponentiation.threshold 5000 in
  exact ⟨rfl, by decide, rfl, by decide, fun k => by cases k <;> rfl⟩

/-- The passthrough theorem at a search endpoint answering 503
`unavailable`. -/
theorem search_failure_passthrough_witness :
    (Copy.search .server Sample.jsonParse Sample.env Sample.worldSearchDown TokenCache.initial
        Sample.queryText (.obj Sample.queryFields)).response.status = 503
    ∧ (Copy.search .server Sample.jsonParse Sample.env Sample.worldSearchDown
        TokenCache.initial Sample.queryText (.obj Sample.queryFields)).response.payload
        = .obj [("error", .str "Flight search failed: unavailable")]
    ∧ (∃ msg, Js.prop (Copy.search .server Sample.jsonParse Sample.env Sample.worldSearchDown
          TokenCache.initial Sample.queryText (.obj Sample.queryFields)).response.payload
          "error" = .str msg ∧ "unavailable".data <:+: msg.data)
    ∧ Js.prop (Copy.search .server Sample.jsonParse Sample.env Sample.worldSearchDown
        TokenCache.initial Sample.queryText (.obj Sample.queryFields)).response.payload "offers"
        = .undefined
    ∧ (Copy.search .server Sample.jsonParse Sample.env Sample.worldSearchDown
        TokenCache.initial Sample.queryText (.obj Sample.queryFields)).requests
        = (Copy.getAccessToken .server Sample.env Sample.worldSearchDown
            TokenCache.initial).requests ++ [Sample.searchRequest] := by
  set_option exponentiation.threshold 5000 in
  exact (search_failure_passthrough .server Sample.jsonParse Sample.env Sample.worldSearchDown
    TokenCache.initial Sample.queryText Sample.queryFields "JFK" "LAX" "2025-06-01" "2025-06-10"
    (.str "token-1") (by decide) (by rfl) Sample.validQuery_query (by rfl)).1
    Sample.searchRequest ⟨503, "unavailable", .error "Unexpected token"⟩ (by rfl) (by rfl)
    (by rfl)

/-- The amended authorization theorem at a token endpoint answering 401
`invalid_client`, and at a configuration without the client secret. -/
theorem token_failure_is_500_witness :
    Copy.search .netlify Sample.jsonParse Sample.env Sample.worldTokenDenied TokenCache.initial
        Sample.queryText (.obj Sample.queryFields)
      = ⟨⟨500, .obj [("error", .str "Token request failed: 401 invalid_client")]⟩,
          TokenCache.initial, [Copy.tokenRequest .netlify Sample.env]⟩
    ∧ Copy.search .server Sample.jsonParse Sample.envNoSecret Sample.worldOk TokenCache.initial
        Sample.queryText (.obj Sample.queryFields)
      = ⟨⟨500, .obj [("error", .str "Missing AMADEUS_CLIENT_ID or AMADEUS_CLIENT_SECRET")]⟩,
          TokenCache.initial, []⟩ :=
  ⟨(token_failure_is_500 .netlify Sample.jsonParse Sample.env Sample.worldTokenDenied
      TokenCache.initial Sample.queryText Sample.queryFields "JFK" "LAX" "2025-06-01"
      "2025-06-10" (by decide) (by rfl) Sample.validQuery_query (by rfl)).1
      ⟨401, "invalid_client", .error "Unexpected token"⟩ (by rfl) (by rfl) (by rfl) (by rfl),
   (token_failure_is_500 .server Sample.jsonParse Sample.envNoSecret Sample.worldOk
      TokenCache.initial Sample.queryText Sample.queryFields "JFK" "LAX" "2025-06-01"
      "2025-06-10" (by decide) (by rfl) Sample.validQuery_query (by rfl)).2 (Or.inr rfl)⟩

/-- An input at which claim C9 as worded fails: a token endpoint answering 401.
Both copies answer 500, not the upstream's own status. -/
theorem token_failure_is_500_counterexample :
    (Copy.search .server Sample.jsonParse Sample.env Sample.worldTokenDenied TokenCache.initial
        Sample.queryText (.obj Sample.queryFields)).response.status = 500
    ∧ (Copy.search .netlify Sample.jsonParse Sample.env Sample.worldTokenDenied
        TokenCache.initial Sample.queryText (.obj Sample.queryFields)).response.status = 500
    ∧ (500 : Nat) ≠ 401 :=
  ⟨rfl, rfl, by decide⟩

/-- The agreement theorem at the sample query with both endpoints
succeeding. -/
theorem copies_agree_witness :
    Copy.search .server Sample.jsonParse Sample.env Sample.worldOk TokenCache.initial
        Sample.queryText (.obj Sample.queryFields)
      = Copy.search .netlify Sample.jsonParse Sample.env Sample.worldOk TokenCache.initial
        Sample.queryText (.obj Sample.queryFields) :=
  copies_agree Sample.jsonParse Sample.env Sample.worldOk TokenCache.initial Sample.queryText
    Sample.queryFields (by decide) (by rfl)

end Flights
